import Mathlib

/-
  Verification development for the InfiniBand base device layer
  (src/uct/ib/base/ib_device.c).

  The definitions below are shallow embeddings of the C functions:
  the khash registries become association lists, the spinlocks become
  no-ops (operations are modelled as atomic whole-state transformers,
  which is exactly what the lock discipline provides), the callback
  queue becomes a list of scheduled callback ids together with a fresh
  id counter, and the verbs/sysfs boundary becomes explicit oracles.
  `ucs_assert` is compiled out in release builds; assertion sites are
  noted in comments and modelled by their release behaviour.
-/

set_option autoImplicit false

/-- The subset of `ucs_status_t` values used by ib_device.c. -/
inductive UcsStatus where
  | UCS_OK
  | UCS_ERR_NO_MEMORY
  | UCS_ERR_BUSY
  | UCS_ERR_NO_DEVICE
  | UCS_ERR_UNSUPPORTED
  | UCS_ERR_UNREACHABLE
  | UCS_ERR_IO_FAILURE
  | UCS_ERR_INVALID_ADDR
  | UCS_ERR_INVALID_PARAM
  | UCS_ERR_ENDPOINT_TIMEOUT
  | UCS_ERR_NO_ELEM
deriving DecidableEq

deriving instance DecidableEq for Except

/-- Generic association-list lookup, modelling `kh_get` + `kh_value`
(first entry with an equal key; khash keys are unique). -/
def assocLookup {α β : Type} [DecidableEq α] : List (α × β) → α → Option β
  | [], _ => none
  | (k, v) :: t, a => if k = a then some v else assocLookup t a

/-- Generic association-list in-place update of an existing key,
modelling a write through `kh_value(h, iter)`.  Identity when the key
is absent. -/
def assocSet {α β : Type} [DecidableEq α] : List (α × β) → α → β → List (α × β)
  | [], _, _ => []
  | (k, v) :: t, a, nv => if k = a then (k, nv) :: t else (k, v) :: assocSet t a nv

/-- Generic association-list deletion, modelling `kh_del`. -/
def assocDel {α β : Type} [DecidableEq α] : List (α × β) → α → List (α × β)
  | [], _ => []
  | (k, v) :: t, a => if k = a then t else (k, v) :: assocDel t a

/-- `uct_ib_async_event_t`: the (event_type, resource_id) hash key.
`uct_ib_async_event_hash_equal` compares exactly these two fields, so
structural equality is the khash key equality. -/
structure uct_ib_async_event where
  event_type : Nat
  resource_id : Nat
deriving DecidableEq

/-- `uct_ib_async_event_val_t`: the per-key registry entry.  The
`wait_ctx` pointer is `none` when no waiter is attached; when a waiter
is attached, the inner `Option Nat` is the waiter's `cb_id`
(`none` = `UCS_CALLBACKQ_ID_NULL`, `some i` = scheduled callback `i`). -/
structure uct_ib_async_event_val where
  fired : Bool
  wait_ctx : Option (Option Nat)
deriving DecidableEq

/-- The async-event portion of `uct_ib_device_t`: the registry hash,
the sticky `UCT_IB_DEVICE_FAILED` flag bit, and the callback queue
(list of scheduled-but-undelivered callback ids plus the fresh-id
counter used by `ucs_callbackq_add_safe`). -/
structure DevAsyncState where
  events : List (uct_ib_async_event × uct_ib_async_event_val)
  failed : Bool
  cbq : List Nat
  next_id : Nat
deriving DecidableEq

/-- `uct_ib_device_async_event_dispatch_nolock`: look the key up; if it
is not registered, silently return; otherwise set `fired` and, when a
waiter is attached, schedule its callback
(`uct_ib_device_async_event_schedule_callback`: `cb_id :=
ucs_callbackq_add_safe(...)`; its `ucs_assert (cb_id == NULL)` is a
debug check, modelled by release behaviour). -/
def uct_ib_device_async_event_dispatch_nolock (s : DevAsyncState)
    (e : uct_ib_async_event) : DevAsyncState :=
  match assocLookup s.events e with
  | none => s
  | some v =>
    match v.wait_ctx with
    | none =>
      { s with events := assocSet s.events e { fired := true, wait_ctx := none } }
    | some _ =>
      { s with
        events := assocSet s.events e { fired := true, wait_ctx := some (some s.next_id) },
        cbq := s.cbq ++ [s.next_id],
        next_id := s.next_id + 1 }

/-- `uct_ib_device_async_event_dispatch`: takes `async_event_lock`
around the nolock variant; the lock is a no-op in this sequential
model. -/
def uct_ib_device_async_event_dispatch (s : DevAsyncState)
    (e : uct_ib_async_event) : DevAsyncState :=
  uct_ib_device_async_event_dispatch_nolock s e

/-- `uct_ib_device_async_event_dispatch_fatal`: under the lock, set the
sticky `UCT_IB_DEVICE_FAILED` flag, then `kh_foreach_key` dispatch
every currently registered key. -/
def uct_ib_device_async_event_dispatch_fatal (s : DevAsyncState) : DevAsyncState :=
  let s0 : DevAsyncState := { s with failed := true }
  (s0.events.map Prod.fst).foldl uct_ib_device_async_event_dispatch_nolock s0

/-- `uct_ib_device_async_event_register`: `kh_put` the key and reset the
entry to `{wait_ctx = NULL, fired = 0}`.  The `UCS_KH_PUT_FAILED`
(allocation failure → `UCS_ERR_NO_MEMORY`) branch cannot occur in the
list model; the `ucs_assert (ret != UCS_KH_PUT_KEY_PRESENT)` debug
check is modelled by its release behaviour (the entry is reset). -/
def uct_ib_device_async_event_register (s : DevAsyncState)
    (e : uct_ib_async_event) : DevAsyncState × UcsStatus :=
  match assocLookup s.events e with
  | some _ =>
    ({ s with events := assocSet s.events e { fired := false, wait_ctx := none } },
     UcsStatus.UCS_OK)
  | none =>
    ({ s with events := s.events ++ [(e, { fired := false, wait_ctx := none })] },
     UcsStatus.UCS_OK)

/-- `uct_ib_device_async_event_inprogress`: a waiter is attached and its
callback is already scheduled (`cb_id != UCS_CALLBACKQ_ID_NULL`). -/
def uct_ib_device_async_event_inprogress (v : uct_ib_async_event_val) : Bool :=
  match v.wait_ctx with
  | some (some _) => true
  | _ => false

/-- `uct_ib_device_async_event_wait`: the key must be registered
(`ucs_assert (iter != kh_end)`; an unregistered key is a caller
contract violation, modelled by an `UCS_ERR_NO_ELEM` result).  If a
scheduled-but-undelivered callback exists, fail with `UCS_ERR_BUSY`
without altering the state.  Otherwise attach the context with
`cb_id = UCS_CALLBACKQ_ID_NULL` and, if the entry already fired,
schedule the callback immediately. -/
def uct_ib_device_async_event_wait (s : DevAsyncState)
    (e : uct_ib_async_event) : DevAsyncState × UcsStatus :=
  match assocLookup s.events e with
  | none => (s, UcsStatus.UCS_ERR_NO_ELEM)
  | some v =>
    if uct_ib_device_async_event_inprogress v then
      (s, UcsStatus.UCS_ERR_BUSY)
    else if v.fired then
      ({ s with
         events := assocSet s.events e { fired := v.fired, wait_ctx := some (some s.next_id) },
         cbq := s.cbq ++ [s.next_id],
         next_id := s.next_id + 1 }, UcsStatus.UCS_OK)
    else
      ({ s with events := assocSet s.events e { fired := v.fired, wait_ctx := some none } },
       UcsStatus.UCS_OK)

/-- `uct_ib_device_async_event_unregister`: the key must be registered
(`ucs_assert`, modelled as a no-op on violation); if a callback is
scheduled-but-undelivered, `ucs_callbackq_remove_safe` cancels it
(the queue holds at most one entry per id, so removal is a filter);
then `kh_del` the entry unconditionally. -/
def uct_ib_device_async_event_unregister (s : DevAsyncState)
    (e : uct_ib_async_event) : DevAsyncState :=
  match assocLookup s.events e with
  | none => s
  | some v =>
    { s with
      events := assocDel s.events e,
      cbq := match v.wait_ctx with
             | some (some i) => s.cbq.filter (fun j => j ≠ i)
             | _ => s.cbq }

/-- The externally visible effects of `uct_ib_device_cleanup`. -/
structure CleanupEffect where
  /-- `ucs_warn("async_events_hash not empty")` was issued
  (`kh_size(&dev->async_events_hash) != 0`). -/
  warned_nonempty : Bool
  /-- whether cleanup aborts on a non-empty registry via an assertion:
  the source only warns, it contains no assertion here. -/
  asserted_nonempty_abort : Bool
  /-- `kh_destroy_inplace(uct_ib_async_event, ...)` ran. -/
  events_hash_destroyed : Bool
  /-- `kh_destroy_inplace(uct_ib_ah, ...)` ran. -/
  ah_hash_destroyed : Bool
  /-- `ucs_async_remove_handler(dev->ibv_context->async_fd, 1)` ran. -/
  handler_removed : Bool
  /-- `UCS_STATS_NODE_FREE(dev->stats)` ran. -/
  stats_freed : Bool
deriving DecidableEq

/-- `uct_ib_device_cleanup`: warn (only) when the async-event registry
is non-empty, destroy both hashes and their locks, remove the
async-fd event handler when `dev->async_events` was set, and free the
stats node. -/
def uct_ib_device_cleanup (s : DevAsyncState) (async_events : Bool) : CleanupEffect :=
  { warned_nonempty := s.events.length != 0,
    asserted_nonempty_abort := false,
    events_hash_destroyed := true,
    ah_hash_destroyed := true,
    handler_removed := async_events,
    stats_freed := true }

/-- `struct ibv_global_route` (the GRH part of an address-handle
attribute); machine integers are modelled as `Nat` since only equality
of the full record matters for the cache key. -/
structure ibv_global_route where
  dgid_subnet_pfx : Nat
  dgid_interface_id : Nat
  flow_label : Nat
  sgid_index : Nat
  hop_limit : Nat
  traffic_class : Nat
deriving DecidableEq

/-- `struct ibv_ah_attr`: the full address-handle attribute record.
`uct_ib_kh_ah_hash_equal` is `memcmp` over the whole struct, which is
structural equality of this record (all fields, including the GRH
routing/global fields). -/
structure ibv_ah_attr where
  grh : ibv_global_route
  dlid : Nat
  sl : Nat
  src_path_bits : Nat
  static_rate : Nat
  is_global : Bool
  port_num : Nat
deriving DecidableEq

/-- The AH-cache portion of `uct_ib_device_t` plus the hardware
boundary bookkeeping: `ah_hash` is the khash cache, `num_creations`
counts `ibv_create_ah` calls (the n-th successful call returns the
fresh handle `n`), `destroyed` lists the handles passed to
`ibv_destroy_ah`. -/
structure AhCacheState where
  ah_hash : List (ibv_ah_attr × Nat)
  num_creations : Nat
  destroyed : List Nat
deriving DecidableEq

def ETIMEDOUT : Nat := 110

/-- `uct_ib_device_create_ah`: call `ibv_create_ah` (modelled by the
`create_errno` oracle: the result of the n-th creation call is `none`
for success or `some errno` for failure); on failure classify errno:
`ETIMEDOUT → UCS_ERR_ENDPOINT_TIMEOUT`, anything else →
`UCS_ERR_INVALID_ADDR`. -/
def uct_ib_device_create_ah (create_errno : Nat → Option Nat) (s : AhCacheState) :
    Except UcsStatus Nat × AhCacheState :=
  match create_errno s.num_creations with
  | some e =>
    (Except.error (if e = ETIMEDOUT then UcsStatus.UCS_ERR_ENDPOINT_TIMEOUT
                   else UcsStatus.UCS_ERR_INVALID_ADDR),
     { s with num_creations := s.num_creations + 1 })
  | none =>
    (Except.ok s.num_creations, { s with num_creations := s.num_creations + 1 })

/-- `uct_ib_device_create_ah_cached`: under the recursive `ah_lock`
(a no-op here), look the attribute record up in `ah_hash`; on a hit
return the cached handle; on a miss create a new AH, then `kh_put` it
(`put_ok` models whether the khash insertion/allocation succeeds; on
failure destroy the just-created handle and return
`UCS_ERR_NO_MEMORY`). -/
def uct_ib_device_create_ah_cached (create_errno : Nat → Option Nat) (put_ok : Bool)
    (s : AhCacheState) (ah_attr : ibv_ah_attr) : Except UcsStatus Nat × AhCacheState :=
  match assocLookup s.ah_hash ah_attr with
  | some ah => (Except.ok ah, s)
  | none =>
    match uct_ib_device_create_ah create_errno s with
    | (Except.error st, s1) => (Except.error st, s1)
    | (Except.ok ah, s1) =>
      if put_ok then
        (Except.ok ah, { s1 with ah_hash := s1.ah_hash ++ [(ah_attr, ah)] })
      else
        (Except.error UcsStatus.UCS_ERR_NO_MEMORY,
         { s1 with destroyed := s1.destroyed ++ [ah] })

/-- One row of `uct_ib_device_pci_info[]`.  The `double` fields are
modelled as exact rationals; every comparison the code performs on
them is far from the rounding error of binary64, so the rational and
floating evaluations select the same table rows. -/
structure uct_ib_device_pci_info where
  name : String
  bw_gbps : ℚ
  payload : ℚ
  tlp_overhead : ℚ
  /-- `ctrl_ratio` in the source: number of TLPs before an ACK. -/
  tlps_per_ctrl : ℚ
  ctrl_overhead : ℚ
  encoding : ℚ
  decoding : ℚ

/-- The static `uct_ib_device_pci_info[]` PCIe generation table. -/
def uct_ib_device_pci_info_table : List uct_ib_device_pci_info :=
  [ { name := "gen1", bw_gbps := 2.5, payload := 256, tlp_overhead := 24,
      tlps_per_ctrl := 4, ctrl_overhead := 16, encoding := 8, decoding := 10 },
    { name := "gen2", bw_gbps := 5, payload := 256, tlp_overhead := 24,
      tlps_per_ctrl := 4, ctrl_overhead := 16, encoding := 8, decoding := 10 },
    { name := "gen3", bw_gbps := 8, payload := 256, tlp_overhead := 26,
      tlps_per_ctrl := 4, ctrl_overhead := 16, encoding := 128, decoding := 130 },
    { name := "gen4", bw_gbps := 16, payload := 256, tlp_overhead := 26,
      tlps_per_ctrl := 4, ctrl_overhead := 16, encoding := 128, decoding := 130 } ]

/-- `link_utilization` as computed in `uct_ib_device_set_pci_bw`. -/
def pci_link_utilization (p : uct_ib_device_pci_info) : ℚ :=
  (p.payload * p.tlps_per_ctrl) /
    ((p.payload + p.tlp_overhead) * p.tlps_per_ctrl + p.ctrl_overhead)

/-- `effective_bw` as computed in `uct_ib_device_set_pci_bw`:
`(bw_gbps * 1e9 / 8) * width * (encoding / decoding) *
link_utilization`. -/
def pci_effective_bw (p : uct_ib_device_pci_info) (width : ℚ) : ℚ :=
  (p.bw_gbps * 1e9 / 8) * width * (p.encoding / p.decoding) * pci_link_utilization p

/-- `uct_ib_device_set_pci_bw`: `width` is the parsed
`current_link_width` (`none` when the file is unreadable or does not
scan as an unsigned integer), `bw_gbps` the parsed
`current_link_speed` (`none` when unreadable or not of the form
`<double> GT/s`).  The loop skips rows with `bw_gbps / p->bw_gbps >
1.01` and takes the first remaining row; if no row remains (or an
input was unavailable) the stored estimate is the `DBL_MAX` sentinel,
modelled as `none`. -/
def uct_ib_device_set_pci_bw (width : Option Nat) (bw_gbps : Option ℚ) : Option ℚ :=
  match width, bw_gbps with
  | some w, some bw =>
    match uct_ib_device_pci_info_table.find?
        (fun p => decide (bw / p.bw_gbps ≤ 101 / 100)) with
    | some p => some (pci_effective_bw p (w : ℚ))
    | none => none
  | _, _ => none

/-- Modelled from the spec (claim comparison only): the selection rule
as the spec words it, a table row whose nominal rate is within 1% of
the observed speed. -/
def nominal_rate_within_one_percent (bw : ℚ) (p : uct_ib_device_pci_info) : Prop :=
  |p.bw_gbps - bw| ≤ bw / 100

/-- `uct_ib_roce_version_t`. -/
inductive uct_ib_roce_version where
  | v1
  | v1_5
  | v2
deriving DecidableEq

/-- Address family of a RoCE GID (`AF_INET` / `AF_INET6`). -/
inductive sa_family where
  | inet
  | inet6
deriving DecidableEq

/-- `uct_ib_roce_version_info_t`: (RoCE version, address family). -/
structure uct_ib_roce_version_info where
  ver : uct_ib_roce_version
  addr_family : sa_family
deriving DecidableEq

/-- A 128-bit GID as its four 32-bit words in network byte order
(`in6_addr.s6_addr32`, each word read as a big-endian integer, so the
`htonl` constants of the source become plain literals). -/
structure GidRaw where
  w0 : Nat
  w1 : Nat
  w2 : Nat
  w3 : Nat
deriving DecidableEq

/-- One GID table slot as observed through the verbs/sysfs boundary:
`gid = none` models an `ibv_query_gid` failure for that index;
`gid_type = none` models an unreadable sysfs gid-type file (the code
then defaults to RoCE v1). -/
structure GidTableEntry where
  gid : Option GidRaw
  gid_type : Option String
deriving DecidableEq

/-- `uct_ib_device_is_addr_ipv4_mcast`: the IPv4-encoded multicast
pattern (`s6_addr32[0] == htonl(0xff0e0000)` and the remaining 96 bits
of the IPv4-mapped form zero). -/
def uct_ib_device_is_addr_ipv4_mcast (r : GidRaw) (addr_last_bits : Nat) : Bool :=
  (r.w0 == 0xff0e0000) && ((r.w1 ||| addr_last_bits) == 0)

/-- `uct_ib_device_get_addr_family`: classify a GID as IPv4-mapped
(`::ffff:a.b.c.d`, low 96 bits pattern) or v4 multicast-mapped, else
IPv6. -/
def uct_ib_device_get_addr_family (r : GidRaw) : sa_family :=
  let addr_last_bits := r.w2 ^^^ 0x0000ffff
  if (((r.w0 ||| r.w1) ||| addr_last_bits) == 0) ||
     uct_ib_device_is_addr_ipv4_mcast r addr_last_bits then
    sa_family.inet
  else
    sa_family.inet6

/-- `strncmp(buf, lit, strlen lit) == 0`: the literal is a prefix of
the buffer. -/
def strncmp_prefix_eq : List Char → List Char → Bool
  | _, [] => true
  | [], _ :: _ => false
  | a :: as, b :: bs => a == b && strncmp_prefix_eq as bs

/-- `uct_ib_device_query_gid_info`: query the raw gid (failure →
`UCS_ERR_INVALID_PARAM`); read the sysfs gid-type string: prefix
`IB/RoCE v1` → v1, prefix `RoCE v2` → v2, other content →
`UCS_ERR_INVALID_PARAM`, unreadable file → default v1; classify the
address family from the raw gid. -/
def uct_ib_device_query_gid_info (e : GidTableEntry) :
    Except UcsStatus (GidRaw × uct_ib_roce_version_info) :=
  match e.gid with
  | none => Except.error UcsStatus.UCS_ERR_INVALID_PARAM
  | some g =>
    match e.gid_type with
    | some s =>
      if strncmp_prefix_eq s.data ("IB/RoCE v1").data then
        Except.ok (g, { ver := uct_ib_roce_version.v1,
                        addr_family := uct_ib_device_get_addr_family g })
      else if strncmp_prefix_eq s.data ("RoCE v2").data then
        Except.ok (g, { ver := uct_ib_roce_version.v2,
                        addr_family := uct_ib_device_get_addr_family g })
      else
        Except.error UcsStatus.UCS_ERR_INVALID_PARAM
    | none =>
      Except.ok (g, { ver := uct_ib_roce_version.v1,
                      addr_family := uct_ib_device_get_addr_family g })

/-- The `roce_prio[]` priority table of `uct_ib_device_select_gid`. -/
def uct_ib_roce_prio : List uct_ib_roce_version_info :=
  [ { ver := uct_ib_roce_version.v2, addr_family := sa_family.inet },
    { ver := uct_ib_roce_version.v2, addr_family := sa_family.inet6 },
    { ver := uct_ib_roce_version.v1, addr_family := sa_family.inet },
    { ver := uct_ib_roce_version.v1, addr_family := sa_family.inet6 } ]

/-- Modelled from the spec: `UCT_IB_MD_DEFAULT_GID_INDEX`, the fixed
default gid index 0 (the constant lives in a header outside the
provided sources; the spec states the fallback is index 0). -/
def UCT_IB_MD_DEFAULT_GID_INDEX : Nat := 0

/-- The inner loop of `uct_ib_device_select_gid` for one priority
tier: scan the gid table in ascending index order (`i` is the index of
the first element of the remaining list); a query failure aborts with
that error; an entry matching the tier's (version, family) that also
passes the `uct_ib_device_test_roce_gid_index` liveness probe
(modelled by the `probe` oracle over table indices) is selected. -/
def select_gid_scan_tier (p : uct_ib_roce_version_info) (probe : Nat → Bool) :
    List GidTableEntry → Nat → Except UcsStatus (Option (Nat × uct_ib_roce_version_info))
  | [], _ => Except.ok none
  | e :: rest, i =>
    match uct_ib_device_query_gid_info e with
    | Except.error st => Except.error st
    | Except.ok (_, info) =>
      if (p.ver == info.ver && p.addr_family == info.addr_family) && probe i then
        Except.ok (some (i, info))
      else
        select_gid_scan_tier p probe rest (i + 1)

/-- The outer loop of `uct_ib_device_select_gid` over the priority
tiers; when every tier is exhausted, fall back to
(`UCT_IB_MD_DEFAULT_GID_INDEX`, RoCE v1, IPv4) with `UCS_OK`. -/
def select_gid_tiers (probe : Nat → Bool) (table : List GidTableEntry) :
    List uct_ib_roce_version_info → Except UcsStatus (Nat × uct_ib_roce_version_info)
  | [] =>
    Except.ok (UCT_IB_MD_DEFAULT_GID_INDEX,
               { ver := uct_ib_roce_version.v1, addr_family := sa_family.inet })
  | p :: ps =>
    match select_gid_scan_tier p probe table 0 with
    | Except.error st => Except.error st
    | Except.ok (some r) => Except.ok r
    | Except.ok none => select_gid_tiers probe table ps

/-- `uct_ib_device_select_gid` (precondition: RoCE port). -/
def uct_ib_device_select_gid (table : List GidTableEntry) (probe : Nat → Bool) :
    Except UcsStatus (Nat × uct_ib_roce_version_info) :=
  select_gid_tiers probe table uct_ib_roce_prio

/-- Modelled from the spec (claim comparison only): the first matching
index of one tier, the pure priority search the spec describes,
without the error plumbing. -/
def spec_tier_first (p : uct_ib_roce_version_info) (probe : Nat → Bool) :
    List GidTableEntry → Nat → Option Nat
  | [], _ => none
  | e :: rest, i =>
    match uct_ib_device_query_gid_info e with
    | Except.error _ => spec_tier_first p probe rest (i + 1)
    | Except.ok (_, info) =>
      if (p.ver == info.ver && p.addr_family == info.addr_family) && probe i then
        some i
      else
        spec_tier_first p probe rest (i + 1)

/-- Modelled from the spec (claim comparison only): the first
operational match in the tier priority order (v2,IPv4), (v2,IPv6),
(v1,IPv4), (v1,IPv6), ascending table index within a tier. -/
def spec_first_gid (table : List GidTableEntry) (probe : Nat → Bool) :
    List uct_ib_roce_version_info → Option (Nat × uct_ib_roce_version_info)
  | [] => none
  | p :: ps =>
    match spec_tier_first p probe table 0 with
    | some i => some (i, p)
    | none => spec_first_gid table probe ps

/-- PCI identity (vendor, device). -/
structure uct_ib_pci_id where
  vendor : Nat
  device : Nat
deriving DecidableEq

/-- The `UCT_IB_DEVICE_FLAG_*` capability bits carried by a device
spec, as individual booleans (their numeric bit positions are
irrelevant to the checks). -/
structure uct_ib_device_spec_flags where
  mellanox : Bool
  mlx4_prm : Bool
  mlx5_prm : Bool
  dc_v1 : Bool
  dc_v2 : Bool
deriving DecidableEq

/-- `uct_ib_device_spec_t`; `name = none` models the `{NULL}` table
terminator. -/
structure uct_ib_device_spec where
  name : Option String
  pci_id : uct_ib_pci_id
  flags : uct_ib_device_spec_flags
  priority : Nat
deriving DecidableEq

def uct_ib_spec_flags_mlx4 : uct_ib_device_spec_flags :=
  { mellanox := true, mlx4_prm := true, mlx5_prm := false, dc_v1 := false, dc_v2 := false }

def uct_ib_spec_flags_mlx5_dc1 : uct_ib_device_spec_flags :=
  { mellanox := true, mlx4_prm := false, mlx5_prm := true, dc_v1 := true, dc_v2 := false }

def uct_ib_spec_flags_mlx5_dc2 : uct_ib_device_spec_flags :=
  { mellanox := true, mlx4_prm := false, mlx5_prm := true, dc_v1 := false, dc_v2 := true }

def uct_ib_spec_flags_none : uct_ib_device_spec_flags :=
  { mellanox := false, mlx4_prm := false, mlx5_prm := false, dc_v1 := false, dc_v2 := false }

/-- `uct_ib_builtin_device_specs[]` without its `{NULL}` terminator
(the terminator is the base case of `uct_ib_builtin_spec_find`). -/
def uct_ib_builtin_device_specs : List uct_ib_device_spec :=
  [ { name := some ("ConnectX-3"), pci_id := { vendor := 0x15b3, device := 4099 },
      flags := uct_ib_spec_flags_mlx4, priority := 10 },
    { name := some ("ConnectX-3 Pro"), pci_id := { vendor := 0x15b3, device := 4103 },
      flags := uct_ib_spec_flags_mlx4, priority := 11 },
    { name := some ("Connect-IB"), pci_id := { vendor := 0x15b3, device := 4113 },
      flags := uct_ib_spec_flags_mlx5_dc1, priority := 20 },
    { name := some ("ConnectX-4"), pci_id := { vendor := 0x15b3, device := 4115 },
      flags := uct_ib_spec_flags_mlx5_dc1, priority := 30 },
    { name := some ("ConnectX-4"), pci_id := { vendor := 0x15b3, device := 4116 },
      flags := uct_ib_spec_flags_mlx5_dc1, priority := 29 },
    { name := some ("ConnectX-4 LX"), pci_id := { vendor := 0x15b3, device := 4117 },
      flags := uct_ib_spec_flags_mlx5_dc1, priority := 28 },
    { name := some ("ConnectX-4 LX VF"), pci_id := { vendor := 0x15b3, device := 4118 },
      flags := uct_ib_spec_flags_mlx5_dc1, priority := 28 },
    { name := some ("ConnectX-5"), pci_id := { vendor := 0x15b3, device := 4119 },
      flags := uct_ib_spec_flags_mlx5_dc2, priority := 38 },
    { name := some ("ConnectX-5"), pci_id := { vendor := 0x15b3, device := 4121 },
      flags := uct_ib_spec_flags_mlx5_dc2, priority := 40 },
    { name := some ("ConnectX-5"), pci_id := { vendor := 0x15b3, device := 4120 },
      flags := uct_ib_spec_flags_mlx5_dc2, priority := 39 },
    { name := some ("ConnectX-5"), pci_id := { vendor := 0x15b3, device := 41682 },
      flags := uct_ib_spec_flags_mlx5_dc2, priority := 37 },
    { name := some ("ConnectX-5"), pci_id := { vendor := 0x15b3, device := 4122 },
      flags := uct_ib_spec_flags_mlx5_dc2, priority := 36 },
    { name := some ("ConnectX-6"), pci_id := { vendor := 0x15b3, device := 4123 },
      flags := uct_ib_spec_flags_mlx5_dc2, priority := 50 },
    { name := some ("ConnectX-6 VF"), pci_id := { vendor := 0x15b3, device := 4124 },
      flags := uct_ib_spec_flags_mlx5_dc2, priority := 50 },
    { name := some ("ConnectX-6 DX"), pci_id := { vendor := 0x15b3, device := 4125 },
      flags := uct_ib_spec_flags_mlx5_dc2, priority := 60 },
    { name := some ("ConnectX-6 DX VF"), pci_id := { vendor := 0x15b3, device := 4126 },
      flags := uct_ib_spec_flags_mlx5_dc2, priority := 60 },
    { name := some ("ConnectX-6 LX"), pci_id := { vendor := 0x15b3, device := 4127 },
      flags := uct_ib_spec_flags_mlx5_dc2, priority := 45 },
    { name := some ("ConnectX-7"), pci_id := { vendor := 0x15b3, device := 4129 },
      flags := uct_ib_spec_flags_mlx5_dc2, priority := 70 },
    { name := some ("BlueField"), pci_id := { vendor := 0x15b3, device := 0xa2d2 },
      flags := uct_ib_spec_flags_mlx5_dc2, priority := 41 },
    { name := some ("BlueField VF"), pci_id := { vendor := 0x15b3, device := 0xa2d3 },
      flags := uct_ib_spec_flags_mlx5_dc2, priority := 41 },
    { name := some ("BlueField 2"), pci_id := { vendor := 0x15b3, device := 0xa2d6 },
      flags := uct_ib_spec_flags_mlx5_dc2, priority := 61 },
    { name := some ("Generic HCA"), pci_id := { vendor := 0, device := 0 },
      flags := uct_ib_spec_flags_none, priority := 0 } ]

/-- `uct_ib_device_spec_match`: exact (vendor, device) equality. -/
def uct_ib_device_spec_match (pci : uct_ib_pci_id) (s : uct_ib_device_spec) : Bool :=
  (s.pci_id.vendor == pci.vendor) && (s.pci_id.device == pci.device)

/-- The `while ((spec->name != NULL) && !match) ++spec;` walk over the
built-in table: stops at (and returns) the first entry that either is
the `{NULL}` terminator or matches; the empty-list base case is the
terminator itself (name `none`, no flags, rank 0). -/
def uct_ib_builtin_spec_find (pci : uct_ib_pci_id) :
    List uct_ib_device_spec → uct_ib_device_spec
  | [] =>
    { name := none, pci_id := { vendor := 0, device := 0 },
      flags := uct_ib_spec_flags_none, priority := 0 }
  | s :: rest =>
    if s.name.isNone || uct_ib_device_spec_match pci s then s
    else uct_ib_builtin_spec_find pci rest

/-- `uct_ib_device_spec`: scan the md's custom-override list first
(first exact vendor/device match wins), then walk the built-in
table. -/
def uct_ib_device_spec_lookup (custom : List uct_ib_device_spec)
    (pci : uct_ib_pci_id) : uct_ib_device_spec :=
  match custom.find? (fun s => uct_ib_device_spec_match pci s) with
  | some s => s
  | none => uct_ib_builtin_spec_find pci uct_ib_builtin_device_specs

def IBV_PORT_ACTIVE : Nat := 4

/-- The fields of `struct ibv_port_attr` consulted by
`uct_ib_device_port_check`; `link_layer_ib` is
`link_layer == IBV_LINK_LAYER_INFINIBAND`
(`uct_ib_device_is_port_ib`). -/
structure ibv_port_attr_model where
  state : Nat
  gid_tbl_len : Nat
  link_layer_ib : Bool
deriving DecidableEq

/-- The fields of `uct_ib_device_t` consulted by
`uct_ib_device_port_check`.  `port_attr` and `gid_table` are indexed by
the absolute port number (the C array is indexed by
`port_num - first_port`; the function abstraction absorbs the offset).
`has_dc` is modelled from the spec: the `IBV_DEVICE_HAS_DC` hardware
capability flag is defined in a header outside the provided sources. -/
structure uct_ib_device_model where
  first_port : Nat
  num_ports : Nat
  port_attr : Nat → ibv_port_attr_model
  gid_table : Nat → List GidTableEntry
  transport_iwarp : Bool
  has_dc : Bool
  pci_id : uct_ib_pci_id

/-- The fields of `uct_ib_md_t` consulted by
`uct_ib_device_port_check`; `config_gid_index = none` models
`UCS_ULUNITS_AUTO`. -/
structure uct_ib_md_model where
  custom_specs : List uct_ib_device_spec
  config_gid_index : Option Nat
  check_subnet_filter : Bool
  subnet_filter : Nat

/-- `uct_ib_device_get_ib_gid_index`: the configured index, or
`UCT_IB_MD_DEFAULT_GID_INDEX` when the configuration is AUTO. -/
def uct_ib_device_get_ib_gid_index (cfg : Option Nat) : Nat :=
  cfg.getD UCT_IB_MD_DEFAULT_GID_INDEX

/-- `uct_ib_device_is_gid_raw_empty`: both 64-bit halves of the raw
gid are zero. -/
def uct_ib_device_is_gid_raw_empty (g : GidRaw) : Bool :=
  ((g.w0 ||| g.w1) == 0) && ((g.w2 ||| g.w3) == 0)

/-- The 64-bit `gid.global.subnet_prefix` field: the first two
network-order words. -/
def gid_subnet_pfx (g : GidRaw) : Nat :=
  g.w0 * 4294967296 + g.w1

/-- `uct_ib_device_query_gid`: query the gid info for one index (an
out-of-table index makes `ibv_query_gid` fail, hence
`UCS_ERR_INVALID_PARAM`), then reject an all-zero gid with
`UCS_ERR_INVALID_ADDR`. -/
def uct_ib_device_query_gid (tbl : List GidTableEntry) (gid_index : Nat) :
    Except UcsStatus GidRaw :=
  match tbl.get? gid_index with
  | none => Except.error UcsStatus.UCS_ERR_INVALID_PARAM
  | some e =>
    match uct_ib_device_query_gid_info e with
    | Except.error st => Except.error st
    | Except.ok (g, _) =>
      if uct_ib_device_is_gid_raw_empty g then Except.error UcsStatus.UCS_ERR_INVALID_ADDR
      else Except.ok g

/-- The `flags` argument bits of `uct_ib_device_port_check`
(`UCT_IB_DEVICE_FLAG_LINK_IB`, `..._DC`, `..._MLX4_PRM`,
`..._MLX5_PRM`). -/
structure uct_ib_device_flags_req where
  link_ib : Bool
  dc : Bool
  mlx4_prm : Bool
  mlx5_prm : Bool
deriving DecidableEq

/-- `uct_ib_device_port_check`, clause for clause in source order:
port range (`UCS_ERR_NO_DEVICE`), empty gid table
(`UCS_ERR_UNSUPPORTED`), inactive port (`UCS_ERR_UNREACHABLE`), iWARP
transport (`UCS_ERR_UNSUPPORTED`), required InfiniBand link layer
(`UCS_ERR_UNSUPPORTED`), required DC capability
(`UCS_ERR_UNSUPPORTED`), required PRM flags against the catalog lookup
(`ucs_test_all_flags`, `UCS_ERR_UNSUPPORTED`), gid query (failure
propagates as-is), subnet filter (`UCS_ERR_UNSUPPORTED`), else
`UCS_OK`. -/
def uct_ib_device_port_check (dev : uct_ib_device_model) (md : uct_ib_md_model)
    (port_num : Nat) (flags : uct_ib_device_flags_req) : UcsStatus :=
  if port_num < dev.first_port ∨ dev.first_port + dev.num_ports ≤ port_num then
    UcsStatus.UCS_ERR_NO_DEVICE
  else if (dev.port_attr port_num).gid_tbl_len = 0 then
    UcsStatus.UCS_ERR_UNSUPPORTED
  else if (dev.port_attr port_num).state ≠ IBV_PORT_ACTIVE then
    UcsStatus.UCS_ERR_UNREACHABLE
  else if dev.transport_iwarp then
    UcsStatus.UCS_ERR_UNSUPPORTED
  else if ¬(dev.port_attr port_num).link_layer_ib ∧ flags.link_ib then
    UcsStatus.UCS_ERR_UNSUPPORTED
  else if flags.dc ∧ ¬dev.has_dc then
    UcsStatus.UCS_ERR_UNSUPPORTED
  else if (flags.mlx4_prm ∧
             ¬(uct_ib_device_spec_lookup md.custom_specs dev.pci_id).flags.mlx4_prm) ∨
          (flags.mlx5_prm ∧
             ¬(uct_ib_device_spec_lookup md.custom_specs dev.pci_id).flags.mlx5_prm) then
    UcsStatus.UCS_ERR_UNSUPPORTED
  else
    match uct_ib_device_query_gid (dev.gid_table port_num)
        (uct_ib_device_get_ib_gid_index md.config_gid_index) with
    | Except.error st => st
    | Except.ok g =>
      if md.check_subnet_filter ∧ (dev.port_attr port_num).link_layer_ib ∧
         md.subnet_filter ≠ gid_subnet_pfx g then
        UcsStatus.UCS_ERR_UNSUPPORTED
      else
        UcsStatus.UCS_OK

/-
  Theorems.  First generic association-list lemmas, then per-component
  helper lemmas, then one theorem per claim (with witnesses and
  counterexamples where required).
-/

theorem assocLookup_eq_none_of_not_mem {α β : Type} [DecidableEq α]
    (l : List (α × β)) (a : α) (h : a ∉ l.map Prod.fst) : assocLookup l a = none := by
  induction l with
  | nil => rfl
  | cons p t ih =>
    obtain ⟨k, v⟩ := p
    simp only [List.map_cons, List.mem_cons] at h
    push_neg at h
    simp only [assocLookup]
    rw [if_neg (fun hk => h.1 hk.symm)]
    exact ih h.2

theorem assoc_mem_of_lookup_some {α β : Type} [DecidableEq α]
    {l : List (α × β)} {a : α} {v : β} (h : assocLookup l a = some v) :
    a ∈ l.map Prod.fst := by
  by_contra hmem
  rw [assocLookup_eq_none_of_not_mem l a hmem] at h
  exact Option.noConfusion h

theorem assocSet_of_lookup_none {α β : Type} [DecidableEq α]
    (l : List (α × β)) (a : α) (v : β) (h : assocLookup l a = none) :
    assocSet l a v = l := by
  induction l with
  | nil => rfl
  | cons p t ih =>
    obtain ⟨k, u⟩ := p
    simp only [assocLookup] at h
    by_cases hk : k = a
    · rw [if_pos hk] at h
      exact Option.noConfusion h
    · rw [if_neg hk] at h
      simp only [assocSet, if_neg hk, ih h]

theorem assocLookup_assocSet_self {α β : Type} [DecidableEq α]
    {l : List (α × β)} {a : α} {w : β} (v : β) (h : assocLookup l a = some w) :
    assocLookup (assocSet l a v) a = some v := by
  induction l with
  | nil =>
    simp only [assocLookup] at h
    exact Option.noConfusion h
  | cons p t ih =>
    obtain ⟨k, u⟩ := p
    by_cases hk : k = a
    · subst hk
      simp [assocSet, assocLookup]
    · simp only [assocLookup, if_neg hk] at h
      simp only [assocSet, if_neg hk, assocLookup]
      exact ih h

theorem assocLookup_assocSet_ne {α β : Type} [DecidableEq α]
    (l : List (α × β)) (a b : α) (v : β) (hne : b ≠ a) :
    assocLookup (assocSet l a v) b = assocLookup l b := by
  induction l with
  | nil => rfl
  | cons p t ih =>
    obtain ⟨k, u⟩ := p
    by_cases hk : k = a
    · subst hk
      have hab : ¬(k = b) := fun hab => hne hab.symm
      simp [assocSet, assocLookup, hab]
    · simp only [assocSet, if_neg hk, assocLookup]
      by_cases hkb : k = b
      · simp [hkb]
      · simp [hkb, ih]

theorem assocLookup_assocSet_none {α β : Type} [DecidableEq α]
    (l : List (α × β)) (a b : α) (v : β) (h : assocLookup l b = none) :
    assocLookup (assocSet l a v) b = none := by
  by_cases hb : b = a
  · subst hb
    rw [assocSet_of_lookup_none l b v h]
    exact h
  · rw [assocLookup_assocSet_ne l a b v hb]
    exact h

theorem map_fst_assocSet {α β : Type} [DecidableEq α]
    (l : List (α × β)) (a : α) (v : β) :
    (assocSet l a v).map Prod.fst = l.map Prod.fst := by
  induction l with
  | nil => rfl
  | cons p t ih =>
    obtain ⟨k, u⟩ := p
    by_cases hk : k = a
    · simp [assocSet, hk]
    · simp [assocSet, hk, ih]

theorem assocLookup_assocDel_self {α β : Type} [DecidableEq α]
    (l : List (α × β)) (a : α) (hnd : (l.map Prod.fst).Nodup) :
    assocLookup (assocDel l a) a = none := by
  induction l with
  | nil => rfl
  | cons p t ih =>
    obtain ⟨k, u⟩ := p
    simp only [List.map_cons, List.nodup_cons] at hnd
    simp only [assocDel]
    by_cases hk : k = a
    · rw [if_pos hk]
      exact assocLookup_eq_none_of_not_mem t a (hk ▸ hnd.1)
    · rw [if_neg hk]
      simp only [assocLookup, if_neg hk]
      exact ih hnd.2

theorem assocLookup_append_fresh {α β : Type} [DecidableEq α]
    (l : List (α × β)) (a : α) (v : β) (h : assocLookup l a = none) :
    assocLookup (l ++ [(a, v)]) a = some v := by
  induction l with
  | nil => simp [assocLookup]
  | cons p t ih =>
    obtain ⟨k, u⟩ := p
    simp only [assocLookup] at h
    by_cases hk : k = a
    · rw [if_pos hk] at h
      exact Option.noConfusion h
    · rw [if_neg hk] at h
      simp only [List.cons_append, assocLookup, if_neg hk]
      exact ih h

theorem dispatch_nolock_failed (s : DevAsyncState) (e : uct_ib_async_event) :
    (uct_ib_device_async_event_dispatch_nolock s e).failed = s.failed := by
  cases he : assocLookup s.events e with
  | none => simp [uct_ib_device_async_event_dispatch_nolock, he]
  | some v =>
    cases hw : v.wait_ctx <;>
      simp [uct_ib_device_async_event_dispatch_nolock, he, hw]

theorem dispatch_nolock_lookup_none (s : DevAsyncState) (e k : uct_ib_async_event)
    (h : assocLookup s.events k = none) :
    assocLookup (uct_ib_device_async_event_dispatch_nolock s e).events k = none := by
  cases he : assocLookup s.events e with
  | none => simpa [uct_ib_device_async_event_dispatch_nolock, he] using h
  | some v =>
    cases hw : v.wait_ctx <;>
      simp [uct_ib_device_async_event_dispatch_nolock, he, hw,
            assocLookup_assocSet_none _ _ _ _ h]

theorem dispatch_nolock_lookup_some (s : DevAsyncState) (e k : uct_ib_async_event)
    (v : uct_ib_async_event_val) (h : assocLookup s.events k = some v) :
    ∃ v', assocLookup (uct_ib_device_async_event_dispatch_nolock s e).events k = some v'
      ∧ v'.wait_ctx.isSome = v.wait_ctx.isSome
      ∧ (v.fired = true → v'.fired = true) := by
  cases he : assocLookup s.events e with
  | none =>
    refine ⟨v, ?_, rfl, fun hf => hf⟩
    simpa [uct_ib_device_async_event_dispatch_nolock, he] using h
  | some w =>
    by_cases hk : k = e
    · subst hk
      have hwv : w = v := by
        rw [h] at he
        exact (Option.some.inj he).symm
      subst hwv
      cases hw : w.wait_ctx with
      | none =>
        refine ⟨{ fired := true, wait_ctx := none }, ?_, by simp [hw], fun _ => rfl⟩
        simp [uct_ib_device_async_event_dispatch_nolock, h, hw,
              assocLookup_assocSet_self _ h]
      | some c =>
        refine ⟨{ fired := true, wait_ctx := some (some s.next_id) }, ?_,
                by simp [hw], fun _ => rfl⟩
        simp [uct_ib_device_async_event_dispatch_nolock, h, hw,
              assocLookup_assocSet_self _ h]
    · cases hw : w.wait_ctx with
      | none =>
        refine ⟨v, ?_, rfl, fun hf => hf⟩
        simp [uct_ib_device_async_event_dispatch_nolock, he, hw,
              assocLookup_assocSet_ne _ _ _ _ hk, h]
      | some c =>
        refine ⟨v, ?_, rfl, fun hf => hf⟩
        simp [uct_ib_device_async_event_dispatch_nolock, he, hw,
              assocLookup_assocSet_ne _ _ _ _ hk, h]

theorem dispatch_nolock_fires_self (s : DevAsyncState) (e : uct_ib_async_event)
    (v : uct_ib_async_event_val) (h : assocLookup s.events e = some v) :
    ∃ v', assocLookup (uct_ib_device_async_event_dispatch_nolock s e).events e = some v'
      ∧ v'.fired = true
      ∧ v'.wait_ctx.isSome = v.wait_ctx.isSome := by
  cases hw : v.wait_ctx with
  | none =>
    refine ⟨{ fired := true, wait_ctx := none }, ?_, rfl, by simp [hw]⟩
    simp [uct_ib_device_async_event_dispatch_nolock, h, hw,
          assocLookup_assocSet_self _ h]
  | some c =>
    refine ⟨{ fired := true, wait_ctx := some (some s.next_id) }, ?_, rfl, by simp [hw]⟩
    simp [uct_ib_device_async_event_dispatch_nolock, h, hw,
          assocLookup_assocSet_self _ h]

theorem dispatch_nolock_cbq_len (s : DevAsyncState) (e : uct_ib_async_event) :
    (uct_ib_device_async_event_dispatch_nolock s e).cbq.length =
      s.cbq.length +
      (match assocLookup s.events e with
       | some v => v.wait_ctx.isSome
       | none => false).toNat := by
  cases he : assocLookup s.events e with
  | none => simp [uct_ib_device_async_event_dispatch_nolock, he]
  | some v =>
    cases hw : v.wait_ctx <;>
      simp [uct_ib_device_async_event_dispatch_nolock, he, hw]

/-- C1: for a registered key with no waiter attached and not yet fired,
dispatch-then-wait schedules exactly one callback (the fresh id
`s.next_id` is appended to the callback queue) with wait returning
`UCS_OK`, and wait-then-dispatch schedules exactly the same single
callback with wait returning `UCS_OK`: the two orders are equivalent
in the callbacks they schedule, and no wakeup is lost or duplicated. -/
theorem claim_C1_dispatch_wait_order_independent (s : DevAsyncState)
    (e : uct_ib_async_event)
    (h : assocLookup s.events e = some { fired := false, wait_ctx := none }) :
    ((uct_ib_device_async_event_wait (uct_ib_device_async_event_dispatch s e) e).2
        = UcsStatus.UCS_OK
     ∧ (uct_ib_device_async_event_wait (uct_ib_device_async_event_dispatch s e) e).1.cbq
        = s.cbq ++ [s.next_id])
    ∧ ((uct_ib_device_async_event_wait s e).2 = UcsStatus.UCS_OK
     ∧ (uct_ib_device_async_event_dispatch (uct_ib_device_async_event_wait s e).1 e).cbq
        = s.cbq ++ [s.next_id]) := by
  have h1 : assocLookup (assocSet s.events e
      { fired := true, wait_ctx := none }) e =
      some { fired := true, wait_ctx := none } :=
    assocLookup_assocSet_self _ h
  have h2 : assocLookup (assocSet s.events e
      { fired := false, wait_ctx := some none }) e =
      some { fired := false, wait_ctx := some none } :=
    assocLookup_assocSet_self _ h
  refine ⟨⟨?_, ?_⟩, ?_, ?_⟩ <;>
    simp [uct_ib_device_async_event_dispatch,
          uct_ib_device_async_event_dispatch_nolock,
          uct_ib_device_async_event_wait,
          uct_ib_device_async_event_inprogress, h, h1, h2]

/-- C1 witness: a concrete device state with key (1, 7) registered,
idle and unfired; both orders schedule exactly callback id 0 and wait
returns `UCS_OK`. -/
theorem claim_C1_witness :
    ((uct_ib_device_async_event_wait
        (uct_ib_device_async_event_dispatch
          ⟨[(⟨1, 7⟩, ⟨false, none⟩)], false, [], 0⟩ ⟨1, 7⟩) ⟨1, 7⟩).2
        = UcsStatus.UCS_OK
     ∧ (uct_ib_device_async_event_wait
        (uct_ib_device_async_event_dispatch
          ⟨[(⟨1, 7⟩, ⟨false, none⟩)], false, [], 0⟩ ⟨1, 7⟩) ⟨1, 7⟩).1.cbq = [] ++ [0])
    ∧ ((uct_ib_device_async_event_wait
          ⟨[(⟨1, 7⟩, ⟨false, none⟩)], false, [], 0⟩ ⟨1, 7⟩).2 = UcsStatus.UCS_OK
     ∧ (uct_ib_device_async_event_dispatch
          (uct_ib_device_async_event_wait
            ⟨[(⟨1, 7⟩, ⟨false, none⟩)], false, [], 0⟩ ⟨1, 7⟩).1 ⟨1, 7⟩).cbq = [] ++ [0]) :=
  claim_C1_dispatch_wait_order_independent
    ⟨[(⟨1, 7⟩, ⟨false, none⟩)], false, [], 0⟩ ⟨1, 7⟩ (by decide)

/-- C3: after unregister of a registered key, the key is absent from
the registry, and when the attached waiter's callback was scheduled
but not yet delivered (cb id `i`), that callback has been cancelled:
it is no longer in the callback queue, so it can never be delivered
afterwards — in particular also when a dispatch had scheduled it just
before the unregister. -/
theorem claim_C3_unregister_removes_and_cancels (s : DevAsyncState)
    (e : uct_ib_async_event) (v : uct_ib_async_event_val)
    (hnd : (s.events.map Prod.fst).Nodup)
    (h : assocLookup s.events e = some v) :
    assocLookup (uct_ib_device_async_event_unregister s e).events e = none
    ∧ (∀ i, v.wait_ctx = some (some i) →
        i ∉ (uct_ib_device_async_event_unregister s e).cbq) := by
  constructor
  · have hd := assocLookup_assocDel_self s.events e hnd
    simp [uct_ib_device_async_event_unregister, h, hd]
  · intro i hi
    simp [uct_ib_device_async_event_unregister, h, hi]

/-- C3 witness: key (1, 7) is registered with a waiter attached; a
dispatch just before the unregister schedules callback id 0; the
unregister leaves the key absent and callback 0 cancelled. -/
theorem claim_C3_witness :
    assocLookup (uct_ib_device_async_event_unregister
      (uct_ib_device_async_event_dispatch
        ⟨[(⟨1, 7⟩, ⟨false, some none⟩)], false, [], 0⟩ ⟨1, 7⟩) ⟨1, 7⟩).events ⟨1, 7⟩ = none
    ∧ 0 ∉ (uct_ib_device_async_event_unregister
      (uct_ib_device_async_event_dispatch
        ⟨[(⟨1, 7⟩, ⟨false, some none⟩)], false, [], 0⟩ ⟨1, 7⟩) ⟨1, 7⟩).cbq := by
  have h := claim_C3_unregister_removes_and_cancels
    (uct_ib_device_async_event_dispatch
      ⟨[(⟨1, 7⟩, ⟨false, some none⟩)], false, [], 0⟩ ⟨1, 7⟩) ⟨1, 7⟩
    { fired := true, wait_ctx := some (some 0) } (by decide) (by decide)
  exact ⟨h.1, h.2 0 rfl⟩

theorem fold_dnl_failed (ks : List uct_ib_async_event) (s : DevAsyncState) :
    (ks.foldl uct_ib_device_async_event_dispatch_nolock s).failed = s.failed := by
  induction ks generalizing s with
  | nil => rfl
  | cons e rest ih =>
    simp only [List.foldl_cons]
    rw [ih, dispatch_nolock_failed]

theorem fold_dnl_lookup_none (ks : List uct_ib_async_event) (s : DevAsyncState)
    (k : uct_ib_async_event) (h : assocLookup s.events k = none) :
    assocLookup ((ks.foldl uct_ib_device_async_event_dispatch_nolock s)).events k = none := by
  induction ks generalizing s with
  | nil => exact h
  | cons e rest ih =>
    simp only [List.foldl_cons]
    exact ih _ (dispatch_nolock_lookup_none s e k h)

theorem fold_dnl_lookup_some (ks : List uct_ib_async_event) (s : DevAsyncState)
    (k : uct_ib_async_event) (v : uct_ib_async_event_val)
    (h : assocLookup s.events k = some v) :
    ∃ v', assocLookup ((ks.foldl uct_ib_device_async_event_dispatch_nolock s)).events k
        = some v'
      ∧ v'.wait_ctx.isSome = v.wait_ctx.isSome
      ∧ (v.fired = true → v'.fired = true) := by
  induction ks generalizing s v with
  | nil => exact ⟨v, h, rfl, fun hf => hf⟩
  | cons e rest ih =>
    obtain ⟨v1, h1, hi1, hf1⟩ := dispatch_nolock_lookup_some s e k v h
    obtain ⟨v2, h2, hi2, hf2⟩ := ih (uct_ib_device_async_event_dispatch_nolock s e) v1 h1
    exact ⟨v2, h2, hi2.trans hi1, fun hf => hf2 (hf1 hf)⟩

theorem fold_dnl_fired (ks : List uct_ib_async_event) (s : DevAsyncState)
    (k : uct_ib_async_event) (v : uct_ib_async_event_val)
    (hmem : k ∈ ks) (h : assocLookup s.events k = some v) :
    ∃ v', assocLookup ((ks.foldl uct_ib_device_async_event_dispatch_nolock s)).events k
        = some v'
      ∧ v'.fired = true := by
  induction ks generalizing s v with
  | nil => exact absurd hmem (List.not_mem_nil k)
  | cons e rest ih =>
    simp only [List.foldl_cons]
    rcases List.mem_cons.mp hmem with rfl | hrest
    · obtain ⟨v1, h1, hf1, _⟩ := dispatch_nolock_fires_self s k v h
      obtain ⟨v2, h2, _, hf2⟩ :=
        fold_dnl_lookup_some rest (uct_ib_device_async_event_dispatch_nolock s k) k v1 h1
      exact ⟨v2, h2, hf2 hf1⟩
    · obtain ⟨v1, h1, _, _⟩ := dispatch_nolock_lookup_some s e k v h
      exact ih (uct_ib_device_async_event_dispatch_nolock s e) v1 hrest h1

theorem dispatch_nolock_haswaiter (s : DevAsyncState) (e k : uct_ib_async_event) :
    (match assocLookup (uct_ib_device_async_event_dispatch_nolock s e).events k with
     | some v => v.wait_ctx.isSome
     | none => false)
    = (match assocLookup s.events k with
       | some v => v.wait_ctx.isSome
       | none => false) := by
  cases h : assocLookup s.events k with
  | none => rw [dispatch_nolock_lookup_none s e k h]
  | some v =>
    obtain ⟨v', hl, hiso, _⟩ := dispatch_nolock_lookup_some s e k v h
    rw [hl]
    exact hiso

theorem fold_dnl_cbq_len (ks : List uct_ib_async_event) (s : DevAsyncState) :
    ((ks.foldl uct_ib_device_async_event_dispatch_nolock s)).cbq.length
      = s.cbq.length + (ks.filter (fun k =>
          match assocLookup s.events k with
          | some v => v.wait_ctx.isSome
          | none => false)).length := by
  induction ks generalizing s with
  | nil => simp
  | cons e rest ih =>
    simp only [List.foldl_cons, List.filter_cons]
    rw [ih (uct_ib_device_async_event_dispatch_nolock s e)]
    have hfil : List.filter (fun k =>
        match assocLookup (uct_ib_device_async_event_dispatch_nolock s e).events k with
        | some v => v.wait_ctx.isSome
        | none => false) rest
      = List.filter (fun k =>
          match assocLookup s.events k with
          | some v => v.wait_ctx.isSome
          | none => false) rest := by
      refine List.filter_congr ?_
      intro x _
      exact dispatch_nolock_haswaiter s e x
    rw [hfil, dispatch_nolock_cbq_len s e]
    cases hb : (match assocLookup s.events e with
                | some v => v.wait_ctx.isSome
                | none => false) with
    | false => simp [hb]
    | true =>
      simp [hb]
      omega

theorem registry_waiter_count
    (l : List (uct_ib_async_event × uct_ib_async_event_val))
    (hnd : (l.map Prod.fst).Nodup) :
    ((l.map Prod.fst).filter (fun k =>
        match assocLookup l k with
        | some v => v.wait_ctx.isSome
        | none => false)).length
    = (l.filter (fun p => p.2.wait_ctx.isSome)).length := by
  induction l with
  | nil => rfl
  | cons p t ih =>
    obtain ⟨k, v⟩ := p
    simp only [List.map_cons, List.nodup_cons] at hnd
    obtain ⟨hk, hndt⟩ := hnd
    have hcong : List.filter (fun x =>
        match assocLookup ((k, v) :: t) x with
        | some w => w.wait_ctx.isSome
        | none => false) (t.map Prod.fst)
      = List.filter (fun x =>
          match assocLookup t x with
          | some w => w.wait_ctx.isSome
          | none => false) (t.map Prod.fst) := by
      refine List.filter_congr ?_
      intro x hx
      have hxk : ¬(k = x) := fun he => hk (he ▸ hx)
      simp [assocLookup, hxk]
    have hhead : (match assocLookup ((k, v) :: t) k with
        | some w => w.wait_ctx.isSome
        | none => false) = v.wait_ctx.isSome := by
      simp [assocLookup]
    simp only [List.map_cons, List.filter_cons, hhead, hcong, ih hndt]
    cases hb : v.wait_ctx.isSome <;> simp [hb, ih hndt, hcong]

/-- C2: dispatch_fatal sets the sticky device-failed flag, marks every
currently registered key as fired, and schedules exactly one new
callback per registered key with a waiter attached (the callback-queue
length grows by exactly the number of waiter-carrying entries);
unregistered keys remain unregistered; a subsequent register of a
fresh key still succeeds with `UCS_OK` and inserts an idle entry, and
the failed flag is still set after that register. -/
theorem claim_C2_dispatch_fatal (s : DevAsyncState)
    (hnd : (s.events.map Prod.fst).Nodup) :
    (uct_ib_device_async_event_dispatch_fatal s).failed = true
    ∧ (∀ e v, assocLookup s.events e = some v →
        ∃ v', assocLookup (uct_ib_device_async_event_dispatch_fatal s).events e = some v'
          ∧ v'.fired = true)
    ∧ (uct_ib_device_async_event_dispatch_fatal s).cbq.length
        = s.cbq.length + (s.events.filter (fun p => p.2.wait_ctx.isSome)).length
    ∧ (∀ e, assocLookup s.events e = none →
        assocLookup (uct_ib_device_async_event_dispatch_fatal s).events e = none)
    ∧ (∀ e, assocLookup (uct_ib_device_async_event_dispatch_fatal s).events e = none →
        (uct_ib_device_async_event_register
            (uct_ib_device_async_event_dispatch_fatal s) e).2 = UcsStatus.UCS_OK
        ∧ assocLookup (uct_ib_device_async_event_register
            (uct_ib_device_async_event_dispatch_fatal s) e).1.events e
            = some { fired := false, wait_ctx := none }
        ∧ (uct_ib_device_async_event_register
            (uct_ib_device_async_event_dispatch_fatal s) e).1.failed = true) := by
  have hfail : (uct_ib_device_async_event_dispatch_fatal s).failed = true := by
    unfold uct_ib_device_async_event_dispatch_fatal
    rw [fold_dnl_failed]
  refine ⟨hfail, ?_, ?_, ?_, ?_⟩
  · intro e v h
    exact fold_dnl_fired (s.events.map Prod.fst) { s with failed := true } e v
      (assoc_mem_of_lookup_some h) h
  · unfold uct_ib_device_async_event_dispatch_fatal
    rw [fold_dnl_cbq_len]
    exact congrArg (s.cbq.length + ·) (registry_waiter_count s.events hnd)
  · intro e h
    exact fold_dnl_lookup_none (s.events.map Prod.fst) { s with failed := true } e h
  · intro e h
    refine ⟨?_, ?_, ?_⟩
    · simp [uct_ib_device_async_event_register, h]
    · simp only [uct_ib_device_async_event_register, h]
      exact assocLookup_append_fresh _ _ _ h
    · simp only [uct_ib_device_async_event_register, h]
      exact hfail

/-- C2 witness: two registered keys, one with a waiter attached
(cb not yet scheduled) and one idle; after dispatch_fatal the failed
flag is set, both keys are fired, exactly one callback was scheduled,
key (3, 3) is still unregistered, and registering it afterwards
succeeds while the failed flag stays set. -/
theorem claim_C2_witness :
    (uct_ib_device_async_event_dispatch_fatal
      ⟨[(⟨1, 1⟩, ⟨false, some none⟩), (⟨2, 2⟩, ⟨false, none⟩)], false, [], 0⟩).failed = true
    ∧ (∃ v', assocLookup (uct_ib_device_async_event_dispatch_fatal
        ⟨[(⟨1, 1⟩, ⟨false, some none⟩), (⟨2, 2⟩, ⟨false, none⟩)], false, [], 0⟩).events ⟨1, 1⟩
          = some v' ∧ v'.fired = true)
    ∧ (uct_ib_device_async_event_dispatch_fatal
        ⟨[(⟨1, 1⟩, ⟨false, some none⟩), (⟨2, 2⟩, ⟨false, none⟩)], false, [], 0⟩).cbq.length
        = 0 + 1
    ∧ assocLookup (uct_ib_device_async_event_dispatch_fatal
        ⟨[(⟨1, 1⟩, ⟨false, some none⟩), (⟨2, 2⟩, ⟨false, none⟩)], false, [], 0⟩).events ⟨3, 3⟩
        = none
    ∧ (uct_ib_device_async_event_register
        (uct_ib_device_async_event_dispatch_fatal
          ⟨[(⟨1, 1⟩, ⟨false, some none⟩), (⟨2, 2⟩, ⟨false, none⟩)], false, [], 0⟩) ⟨3, 3⟩).2
        = UcsStatus.UCS_OK := by
  have h := claim_C2_dispatch_fatal
    ⟨[(⟨1, 1⟩, ⟨false, some none⟩), (⟨2, 2⟩, ⟨false, none⟩)], false, [], 0⟩ (by decide)
  have habs : assocLookup (uct_ib_device_async_event_dispatch_fatal
      ⟨[(⟨1, 1⟩, ⟨false, some none⟩), (⟨2, 2⟩, ⟨false, none⟩)], false, [], 0⟩).events ⟨3, 3⟩
      = none := h.2.2.2.1 ⟨3, 3⟩ (by decide)
  exact ⟨h.1, h.2.1 ⟨1, 1⟩ ⟨false, some none⟩ (by decide), h.2.2.1, habs,
         (h.2.2.2.2 ⟨3, 3⟩ habs).1⟩

/-- C10 counterexample: on a concrete device state whose async-event
registry still holds one key, `uct_ib_device_cleanup` does not assert
or abort — it only issues a warning and proceeds to tear everything
down, so the claim that cleanup asserts emptiness of the registry is
false of the code. -/
theorem claim_C10_counterexample :
    (uct_ib_device_cleanup ⟨[(⟨1, 1⟩, ⟨false, none⟩)], false, [], 0⟩ true).warned_nonempty
      = true
    ∧ (uct_ib_device_cleanup
        ⟨[(⟨1, 1⟩, ⟨false, none⟩)], false, [], 0⟩ true).asserted_nonempty_abort = false
    ∧ (uct_ib_device_cleanup
        ⟨[(⟨1, 1⟩, ⟨false, none⟩)], false, [], 0⟩ true).events_hash_destroyed = true := by
  decide

/-- C10 (amended): device cleanup warns — without asserting or
aborting — exactly when the async-event registry is non-empty at
teardown, then destroys the registry and the address-handle cache,
removes the event-loop handler for the async file descriptor exactly
when async events were enabled, and releases the device's cached
resources (stats node). -/
theorem claim_C10_cleanup (s : DevAsyncState) (async_events : Bool) :
    (uct_ib_device_cleanup s async_events).asserted_nonempty_abort = false
    ∧ ((uct_ib_device_cleanup s async_events).warned_nonempty = true ↔ s.events ≠ [])
    ∧ (uct_ib_device_cleanup s async_events).events_hash_destroyed = true
    ∧ (uct_ib_device_cleanup s async_events).ah_hash_destroyed = true
    ∧ (uct_ib_device_cleanup s async_events).handler_removed = async_events
    ∧ (uct_ib_device_cleanup s async_events).stats_freed = true := by
  obtain ⟨ev, f, q, n⟩ := s
  refine ⟨rfl, ?_, rfl, rfl, rfl, rfl⟩
  cases ev <;> simp [uct_ib_device_cleanup]

/-- C4: the address-handle cache deduplicates on the full byte-exact
attribute record: a hit returns the previously cached handle with the
whole state (in particular the hardware-creation counter) untouched;
two successive calls with the same uncached attributes (first creation
succeeding) perform exactly one hardware creation and both return the
same handle; and every cached entry survives any later
`create_ah_cached` call unmodified (no eviction before teardown). -/
theorem claim_C4_ah_cache_dedup (create_errno : Nat → Option Nat) (put_ok : Bool)
    (s : AhCacheState) (ah_attr : ibv_ah_attr) :
    (∀ h0, assocLookup s.ah_hash ah_attr = some h0 →
       uct_ib_device_create_ah_cached create_errno put_ok s ah_attr = (Except.ok h0, s))
    ∧ (assocLookup s.ah_hash ah_attr = none →
       create_errno s.num_creations = none →
       put_ok = true →
       (uct_ib_device_create_ah_cached create_errno put_ok s ah_attr).1
           = Except.ok s.num_creations
       ∧ (uct_ib_device_create_ah_cached create_errno put_ok
            (uct_ib_device_create_ah_cached create_errno put_ok s ah_attr).2 ah_attr).1
           = Except.ok s.num_creations
       ∧ ((uct_ib_device_create_ah_cached create_errno put_ok
            (uct_ib_device_create_ah_cached create_errno put_ok s ah_attr).2
            ah_attr).2).num_creations = s.num_creations + 1)
    ∧ (∀ a h, (a, h) ∈ s.ah_hash →
        (a, h) ∈ (uct_ib_device_create_ah_cached create_errno put_ok s ah_attr).2.ah_hash) := by
  refine ⟨?_, ?_, ?_⟩
  · intro h0 hhit
    simp [uct_ib_device_create_ah_cached, hhit]
  · intro hmiss hcreate hput
    subst hput
    have hfst : uct_ib_device_create_ah_cached create_errno true s ah_attr
        = (Except.ok s.num_creations,
           { s with num_creations := s.num_creations + 1,
                    ah_hash := s.ah_hash ++ [(ah_attr, s.num_creations)] }) := by
      simp [uct_ib_device_create_ah_cached, uct_ib_device_create_ah, hmiss, hcreate]
    have hsnd : assocLookup (s.ah_hash ++ [(ah_attr, s.num_creations)]) ah_attr
        = some s.num_creations := assocLookup_append_fresh _ _ _ hmiss
    rw [hfst]
    refine ⟨rfl, ?_, ?_⟩ <;>
      simp [uct_ib_device_create_ah_cached, hsnd]
  · intro a h hmem
    cases hhit : assocLookup s.ah_hash ah_attr with
    | some h0 => simp [uct_ib_device_create_ah_cached, hhit, hmem]
    | none =>
      cases hcr : create_errno s.num_creations with
      | some e =>
        simp [uct_ib_device_create_ah_cached, uct_ib_device_create_ah, hhit, hcr, hmem]
      | none =>
        cases put_ok <;>
          simp [uct_ib_device_create_ah_cached, uct_ib_device_create_ah, hhit, hcr, hmem]

/-- C4 witness: with an empty cache and a succeeding hardware oracle,
two successive calls with the same attributes return the same handle 0
after exactly one hardware creation, and the first call's cache entry
survives the second call. -/
theorem claim_C4_witness :
    ((uct_ib_device_create_ah_cached (fun _ => none) true ⟨[], 0, []⟩
        ⟨⟨0, 0, 0, 0, 0, 0⟩, 0, 0, 0, 0, false, 1⟩).1 = Except.ok 0
     ∧ (uct_ib_device_create_ah_cached (fun _ => none) true
          (uct_ib_device_create_ah_cached (fun _ => none) true ⟨[], 0, []⟩
            ⟨⟨0, 0, 0, 0, 0, 0⟩, 0, 0, 0, 0, false, 1⟩).2
          ⟨⟨0, 0, 0, 0, 0, 0⟩, 0, 0, 0, 0, false, 1⟩).1 = Except.ok 0
     ∧ (uct_ib_device_create_ah_cached (fun _ => none) true
          (uct_ib_device_create_ah_cached (fun _ => none) true ⟨[], 0, []⟩
            ⟨⟨0, 0, 0, 0, 0, 0⟩, 0, 0, 0, 0, false, 1⟩).2
          ⟨⟨0, 0, 0, 0, 0, 0⟩, 0, 0, 0, 0, false, 1⟩).2.num_creations = 0 + 1)
    ∧ (⟨⟨0, 0, 0, 0, 0, 0⟩, 0, 0, 0, 0, false, 1⟩, 0) ∈
        (uct_ib_device_create_ah_cached (fun _ => none) true
          (uct_ib_device_create_ah_cached (fun _ => none) true ⟨[], 0, []⟩
            ⟨⟨0, 0, 0, 0, 0, 0⟩, 0, 0, 0, 0, false, 1⟩).2
          ⟨⟨0, 0, 0, 0, 0, 0⟩, 0, 0, 0, 0, false, 1⟩).2.ah_hash := by
  have h := claim_C4_ah_cache_dedup (fun _ => none) true ⟨[], 0, []⟩
    ⟨⟨0, 0, 0, 0, 0, 0⟩, 0, 0, 0, 0, false, 1⟩
  have h2 := claim_C4_ah_cache_dedup (fun _ => none) true
    (uct_ib_device_create_ah_cached (fun _ => none) true ⟨[], 0, []⟩
      ⟨⟨0, 0, 0, 0, 0, 0⟩, 0, 0, 0, 0, false, 1⟩).2
    ⟨⟨0, 0, 0, 0, 0, 0⟩, 0, 0, 0, 0, false, 1⟩
  refine ⟨h.2.1 (by decide) (by decide) rfl, h2.2.2 _ 0 (by decide)⟩

/-- C5: on a cache miss, a failing hardware creation is classified by
errno — `ETIMEDOUT` maps to `UCS_ERR_ENDPOINT_TIMEOUT`, any other
errno to `UCS_ERR_INVALID_ADDR` — and the cache is left unchanged with
nothing destroyed; when the creation succeeds but the hash insertion
fails, the just-created handle is destroyed, `UCS_ERR_NO_MEMORY` is
returned, and the cache is left unchanged, so no created-but-uncached
handle survives the call. -/
theorem claim_C5_ah_cache_failure (create_errno : Nat → Option Nat) (put_ok : Bool)
    (s : AhCacheState) (ah_attr : ibv_ah_attr)
    (hmiss : assocLookup s.ah_hash ah_attr = none) :
    (∀ e, create_errno s.num_creations = some e → e = ETIMEDOUT →
       (uct_ib_device_create_ah_cached create_errno put_ok s ah_attr).1
           = Except.error UcsStatus.UCS_ERR_ENDPOINT_TIMEOUT
       ∧ (uct_ib_device_create_ah_cached create_errno put_ok s ah_attr).2.ah_hash = s.ah_hash
       ∧ (uct_ib_device_create_ah_cached create_errno put_ok s ah_attr).2.destroyed
           = s.destroyed)
    ∧ (∀ e, create_errno s.num_creations = some e → e ≠ ETIMEDOUT →
       (uct_ib_device_create_ah_cached create_errno put_ok s ah_attr).1
           = Except.error UcsStatus.UCS_ERR_INVALID_ADDR
       ∧ (uct_ib_device_create_ah_cached create_errno put_ok s ah_attr).2.ah_hash = s.ah_hash
       ∧ (uct_ib_device_create_ah_cached create_errno put_ok s ah_attr).2.destroyed
           = s.destroyed)
    ∧ (create_errno s.num_creations = none → put_ok = false →
       (uct_ib_device_create_ah_cached create_errno put_ok s ah_attr).1
           = Except.error UcsStatus.UCS_ERR_NO_MEMORY
       ∧ (uct_ib_device_create_ah_cached create_errno put_ok s ah_attr).2.ah_hash = s.ah_hash
       ∧ s.num_creations ∈
           (uct_ib_device_create_ah_cached create_errno put_ok s ah_attr).2.destroyed) := by
  refine ⟨?_, ?_, ?_⟩
  · intro e hcr het
    subst het
    simp [uct_ib_device_create_ah_cached, uct_ib_device_create_ah, hmiss, hcr]
  · intro e hcr het
    simp [uct_ib_device_create_ah_cached, uct_ib_device_create_ah, hmiss, hcr, het]
  · intro hcr hput
    subst hput
    simp [uct_ib_device_create_ah_cached, uct_ib_device_create_ah, hmiss, hcr]

/-- C5 witness: with an empty cache, an `ETIMEDOUT` creation failure
yields `UCS_ERR_ENDPOINT_TIMEOUT`, an `EIO`-style failure (errno 5)
yields `UCS_ERR_INVALID_ADDR`, and a successful creation followed by a
failed insertion yields `UCS_ERR_NO_MEMORY` with the created handle 0
destroyed; the cache stays empty in all three cases. -/
theorem claim_C5_witness :
    ((uct_ib_device_create_ah_cached (fun _ => some 110) true ⟨[], 0, []⟩
        ⟨⟨0, 0, 0, 0, 0, 0⟩, 0, 0, 0, 0, false, 1⟩).1
        = Except.error UcsStatus.UCS_ERR_ENDPOINT_TIMEOUT)
    ∧ ((uct_ib_device_create_ah_cached (fun _ => some 5) true ⟨[], 0, []⟩
        ⟨⟨0, 0, 0, 0, 0, 0⟩, 0, 0, 0, 0, false, 1⟩).1
        = Except.error UcsStatus.UCS_ERR_INVALID_ADDR)
    ∧ ((uct_ib_device_create_ah_cached (fun _ => none) false ⟨[], 0, []⟩
        ⟨⟨0, 0, 0, 0, 0, 0⟩, 0, 0, 0, 0, false, 1⟩).1
        = Except.error UcsStatus.UCS_ERR_NO_MEMORY)
    ∧ (uct_ib_device_create_ah_cached (fun _ => none) false ⟨[], 0, []⟩
        ⟨⟨0, 0, 0, 0, 0, 0⟩, 0, 0, 0, 0, false, 1⟩).2.ah_hash = []
    ∧ 0 ∈ (uct_ib_device_create_ah_cached (fun _ => none) false ⟨[], 0, []⟩
        ⟨⟨0, 0, 0, 0, 0, 0⟩, 0, 0, 0, 0, false, 1⟩).2.destroyed := by
  have h1 := claim_C5_ah_cache_failure (fun _ => some 110) true ⟨[], 0, []⟩
    ⟨⟨0, 0, 0, 0, 0, 0⟩, 0, 0, 0, 0, false, 1⟩ (by decide)
  have h2 := claim_C5_ah_cache_failure (fun _ => some 5) true ⟨[], 0, []⟩
    ⟨⟨0, 0, 0, 0, 0, 0⟩, 0, 0, 0, 0, false, 1⟩ (by decide)
  have h3 := claim_C5_ah_cache_failure (fun _ => none) false ⟨[], 0, []⟩
    ⟨⟨0, 0, 0, 0, 0, 0⟩, 0, 0, 0, 0, false, 1⟩ (by decide)
  exact ⟨(h1.1 110 rfl rfl).1, (h2.2.1 5 rfl (by decide)).1,
         (h3.2.2 rfl rfl).1, (h3.2.2 rfl rfl).2.1, (h3.2.2 rfl rfl).2.2⟩

/-- C6 counterexample: for the readable, well-formed inputs width 1
and speed 2.0 GT/s, no generation-table row has its nominal rate
within 1% of the observed speed (the nearest nominal rate, 2.5, is 25%
away), yet the code does not store the maximum-value sentinel: the
loop condition `bw_gbps / p->bw_gbps > 1.01` only rejects a row whose
nominal rate is exceeded by more than 1%, so gen1 is selected and a
finite estimate is stored.  The claim's selection rule is therefore
false of the code. -/
theorem claim_C6_counterexample :
    (∀ p ∈ uct_ib_device_pci_info_table, ¬ nominal_rate_within_one_percent 2 p)
    ∧ uct_ib_device_set_pci_bw (some 1) (some 2) ≠ none := by
  constructor
  · intro p hp
    simp only [uct_ib_device_pci_info_table, List.mem_cons, List.not_mem_nil,
               or_false] at hp
    rcases hp with rfl | rfl | rfl | rfl <;>
      norm_num [nominal_rate_within_one_percent, abs_le]
  · have hfind : uct_ib_device_pci_info_table.find?
        (fun p => decide ((2 : ℚ) / p.bw_gbps ≤ 101 / 100)) =
        some { name := "gen1", bw_gbps := 2.5, payload := 256, tlp_overhead := 24,
               tlps_per_ctrl := 4, ctrl_overhead := 16, encoding := 8, decoding := 10 } := by
      rw [uct_ib_device_pci_info_table, List.find?_cons_of_pos]
      exact decide_eq_true (by norm_num)
    simp [uct_ib_device_set_pci_bw, hfind]

/-- C6 (amended): for every readable width and speed, the estimator
selects the first generation-table row whose nominal rate the observed
speed does not exceed by more than 1% (`speed / nominal ≤ 1.01`; this
agrees with "within 1%" for the speeds that actually occur in the
table, but also accepts any speed below the nominal rate) and stores
`effective_bw = nominal_rate_bytes_per_sec * width *
(encoding/decoding) * link_utilization` with the claim's
link-utilization formula; an unreadable/unparsable width or speed, or
a speed above every row's 1.01-threshold, stores the
maximum-representable-value sentinel; and width 16 with speed 8.0 GT/s
yields a finite positive value strictly below the raw nominal rate of
the 16-lane link. -/
theorem claim_C6_pci_bw_estimator (w : Nat) (bw : ℚ) :
    (∀ p, uct_ib_device_pci_info_table.find?
        (fun q => decide (bw / q.bw_gbps ≤ 101 / 100)) = some p →
      uct_ib_device_set_pci_bw (some w) (some bw)
        = some ((p.bw_gbps * 1e9 / 8) * (w : ℚ) * (p.encoding / p.decoding) *
            ((p.payload * p.tlps_per_ctrl) /
             ((p.payload + p.tlp_overhead) * p.tlps_per_ctrl + p.ctrl_overhead))))
    ∧ (uct_ib_device_pci_info_table.find?
        (fun q => decide (bw / q.bw_gbps ≤ 101 / 100)) = none →
      uct_ib_device_set_pci_bw (some w) (some bw) = none)
    ∧ uct_ib_device_set_pci_bw none (some bw) = none
    ∧ uct_ib_device_set_pci_bw (some w) none = none
    ∧ (∃ v, uct_ib_device_set_pci_bw (some 16) (some 8) = some v
        ∧ 0 < v ∧ v < 16 * (8 * 1e9 / 8)) := by
  have hfind3 : uct_ib_device_pci_info_table.find?
      (fun q => decide ((8 : ℚ) / q.bw_gbps ≤ 101 / 100)) =
      some { name := "gen3", bw_gbps := 8, payload := 256, tlp_overhead := 26,
             tlps_per_ctrl := 4, ctrl_overhead := 16, encoding := 128,
             decoding := 130 } := by
    rw [uct_ib_device_pci_info_table, List.find?_cons_of_neg, List.find?_cons_of_neg,
        List.find?_cons_of_pos]
    · exact decide_eq_true (by norm_num)
    · simp only [decide_eq_true_eq]
      norm_num
    · simp only [decide_eq_true_eq]
      norm_num
  refine ⟨?_, ?_, rfl, rfl, ?_⟩
  · intro p hp
    simp [uct_ib_device_set_pci_bw, hp, pci_effective_bw, pci_link_utilization]
  · intro hp
    simp [uct_ib_device_set_pci_bw, hp]
  · refine ⟨pci_effective_bw
      { name := "gen3", bw_gbps := 8, payload := 256, tlp_overhead := 26,
        tlps_per_ctrl := 4, ctrl_overhead := 16, encoding := 128,
        decoding := 130 } (16 : Nat), ?_, ?_, ?_⟩
    · simp [uct_ib_device_set_pci_bw, hfind3]
    · norm_num [pci_effective_bw, pci_link_utilization]
    · norm_num [pci_effective_bw, pci_link_utilization]

/-- C6 witness: width 4 with speed 16.0 GT/s (gen4) stores a finite
estimate, and speed 32.0 GT/s exceeds every table row's threshold, so
the sentinel is stored. -/
theorem claim_C6_witness :
    uct_ib_device_set_pci_bw (some 4) (some 16) ≠ none
    ∧ uct_ib_device_set_pci_bw (some 1) (some 32) = none := by
  have hfind4 : uct_ib_device_pci_info_table.find?
      (fun q => decide ((16 : ℚ) / q.bw_gbps ≤ 101 / 100)) =
      some { name := "gen4", bw_gbps := 16, payload := 256, tlp_overhead := 26,
             tlps_per_ctrl := 4, ctrl_overhead := 16, encoding := 128,
             decoding := 130 } := by
    rw [uct_ib_device_pci_info_table, List.find?_cons_of_neg, List.find?_cons_of_neg,
        List.find?_cons_of_neg, List.find?_cons_of_pos]
    · exact decide_eq_true (by norm_num)
    · simp only [decide_eq_true_eq]
      norm_num
    · simp only [decide_eq_true_eq]
      norm_num
    · simp only [decide_eq_true_eq]
      norm_num
  have hfind32 : uct_ib_device_pci_info_table.find?
      (fun q => decide ((32 : ℚ) / q.bw_gbps ≤ 101 / 100)) = none := by
    rw [uct_ib_device_pci_info_table, List.find?_cons_of_neg, List.find?_cons_of_neg,
        List.find?_cons_of_neg, List.find?_cons_of_neg, List.find?_nil]
    · simp only [decide_eq_true_eq]
      norm_num
    · simp only [decide_eq_true_eq]
      norm_num
    · simp only [decide_eq_true_eq]
      norm_num
    · simp only [decide_eq_true_eq]
      norm_num
  constructor
  · rw [(claim_C6_pci_bw_estimator 4 16).1 _ hfind4]
    simp
  · exact (claim_C6_pci_bw_estimator 1 32).2.1 hfind32

theorem scan_tier_eq_spec (p : uct_ib_roce_version_info) (probe : Nat → Bool) :
    ∀ (l : List GidTableEntry) (i0 : Nat),
      (∀ e ∈ l, ∃ r, uct_ib_device_query_gid_info e = Except.ok r) →
      select_gid_scan_tier p probe l i0
        = Except.ok ((spec_tier_first p probe l i0).map (fun i => (i, p)))
  | [], _, _ => rfl
  | e :: rest, i0, hok => by
    obtain ⟨r, hq⟩ := hok e (List.mem_cons_self e rest)
    have hrest : ∀ x ∈ rest, ∃ r, uct_ib_device_query_gid_info x = Except.ok r :=
      fun x hx => hok x (List.mem_cons_of_mem e hx)
    obtain ⟨g, info⟩ := r
    cases hc : ((p.ver == info.ver && p.addr_family == info.addr_family) && probe i0) with
    | true =>
      have hc' := hc
      simp only [Bool.and_eq_true, beq_iff_eq] at hc'
      obtain ⟨⟨h1, h2⟩, hp⟩ := hc'
      have hinfo : info = p := by
        cases p
        cases info
        simp_all
      simp [select_gid_scan_tier, spec_tier_first, hq, hinfo, hp]
    | false =>
      simp [select_gid_scan_tier, spec_tier_first, hq, hc,
            scan_tier_eq_spec p probe rest (i0 + 1) hrest]

theorem select_gid_tiers_eq_spec (probe : Nat → Bool) (table : List GidTableEntry)
    (hok : ∀ e ∈ table, ∃ r, uct_ib_device_query_gid_info e = Except.ok r) :
    ∀ ps : List uct_ib_roce_version_info,
      select_gid_tiers probe table ps
        = Except.ok ((spec_first_gid table probe ps).getD
            (UCT_IB_MD_DEFAULT_GID_INDEX,
             { ver := uct_ib_roce_version.v1, addr_family := sa_family.inet }))
  | [] => rfl
  | p :: ps => by
    have hscan := scan_tier_eq_spec p probe table 0 hok
    cases hs : spec_tier_first p probe table 0 with
    | some i => simp [select_gid_tiers, spec_first_gid, hscan, hs]
    | none =>
      simp [select_gid_tiers, spec_first_gid, hscan, hs,
            select_gid_tiers_eq_spec probe table hok ps]

/-- C7: on a RoCE port whose GID table reads cleanly, select_gid
returns exactly the highest-priority operational match of the pure
priority search — tiers in the fixed order (v2,IPv4), (v2,IPv6),
(v1,IPv4), (v1,IPv6), ascending table index within a tier, an entry
counting only when its queried (version, family) equals the tier's and
the create/destroy liveness probe succeeds — and, when no entry of any
tier is operational, returns the fixed default (index 0, RoCE v1,
IPv4) with `UCS_OK` (the probe plays no role in the fallback: the
hypothesis allows `probe` to reject index 0 as well). -/
theorem claim_C7_select_gid_priority (table : List GidTableEntry) (probe : Nat → Bool)
    (hok : ∀ e ∈ table, ∃ r, uct_ib_device_query_gid_info e = Except.ok r) :
    (∀ i p, spec_first_gid table probe uct_ib_roce_prio = some (i, p) →
       uct_ib_device_select_gid table probe = Except.ok (i, p))
    ∧ (spec_first_gid table probe uct_ib_roce_prio = none →
       uct_ib_device_select_gid table probe
         = Except.ok (UCT_IB_MD_DEFAULT_GID_INDEX,
             { ver := uct_ib_roce_version.v1, addr_family := sa_family.inet })) := by
  have ht := select_gid_tiers_eq_spec probe table hok uct_ib_roce_prio
  constructor
  · intro i p hs
    rw [uct_ib_device_select_gid, ht, hs]
    rfl
  · intro hs
    rw [uct_ib_device_select_gid, ht, hs]
    rfl

/-- C7 witness: a three-entry table where index 0 matches (v1,IPv4)
and index 1 matches (v2,IPv6) — both lower priority — while index 2
is the only (v2,IPv4) entry; with every probe operational, index 2 is
selected with (v2,IPv4); with every probe failing, the fixed default
(index 0, v1, IPv4) is returned with success. -/
theorem claim_C7_witness :
    uct_ib_device_select_gid
      [{ gid := some ⟨0, 0, 0x0000ffff, 1⟩, gid_type := some ("IB/RoCE v1") },
       { gid := some ⟨1, 2, 3, 4⟩, gid_type := some ("RoCE v2") },
       { gid := some ⟨0, 0, 0x0000ffff, 2⟩, gid_type := some ("RoCE v2") }]
      (fun _ => true)
      = Except.ok (2, { ver := uct_ib_roce_version.v2, addr_family := sa_family.inet })
    ∧ uct_ib_device_select_gid
      [{ gid := some ⟨0, 0, 0x0000ffff, 1⟩, gid_type := some ("IB/RoCE v1") },
       { gid := some ⟨1, 2, 3, 4⟩, gid_type := some ("RoCE v2") },
       { gid := some ⟨0, 0, 0x0000ffff, 2⟩, gid_type := some ("RoCE v2") }]
      (fun _ => false)
      = Except.ok (0, { ver := uct_ib_roce_version.v1, addr_family := sa_family.inet }) := by
  have hok : ∀ e ∈
      [({ gid := some ⟨0, 0, 0x0000ffff, 1⟩, gid_type := some ("IB/RoCE v1") }
          : GidTableEntry),
       { gid := some ⟨1, 2, 3, 4⟩, gid_type := some ("RoCE v2") },
       { gid := some ⟨0, 0, 0x0000ffff, 2⟩, gid_type := some ("RoCE v2") }],
      ∃ r, uct_ib_device_query_gid_info e = Except.ok r := by
    intro e he
    simp only [List.mem_cons, List.not_mem_nil, or_false] at he
    rcases he with rfl | rfl | rfl <;> exact ⟨_, rfl⟩
  exact ⟨(claim_C7_select_gid_priority _ _ hok).1 2
           { ver := uct_ib_roce_version.v2, addr_family := sa_family.inet } (by decide),
         (claim_C7_select_gid_priority _ _ hok).2 (by decide)⟩

theorem scan_tier_error_aborts (p : uct_ib_roce_version_info) (probe : Nat → Bool)
    (st : UcsStatus) :
    ∀ (i : Nat) (l : List GidTableEntry) (i0 : Nat),
      (∀ j, j < i → ∃ e r, l.get? j = some e
          ∧ uct_ib_device_query_gid_info e = Except.ok r
          ∧ ((p.ver == r.2.ver && p.addr_family == r.2.addr_family) && probe (i0 + j))
              = false) →
      (∃ e, l.get? i = some e ∧ uct_ib_device_query_gid_info e = Except.error st) →
      select_gid_scan_tier p probe l i0 = Except.error st
  | 0, l, i0, _, herr => by
    obtain ⟨e, hget, hq⟩ := herr
    cases l with
    | nil => simp at hget
    | cons e0 rest =>
      have he : e0 = e := by simpa using hget
      subst he
      simp [select_gid_scan_tier, hq]
  | (i + 1), l, i0, hbef, herr => by
    obtain ⟨e, hget, hq⟩ := herr
    cases l with
    | nil => simp at hget
    | cons e0 rest =>
      obtain ⟨e0', r, hget0, hok0, hcond0⟩ := hbef 0 (Nat.succ_pos i)
      have he0 : e0 = e0' := by simpa using hget0
      subst he0
      rw [Nat.add_zero] at hcond0
      have hbef' : ∀ j, j < i → ∃ e r, rest.get? j = some e
          ∧ uct_ib_device_query_gid_info e = Except.ok r
          ∧ ((p.ver == r.2.ver && p.addr_family == r.2.addr_family) && probe (i0 + 1 + j))
              = false := by
        intro j hj
        obtain ⟨e1, r1, hg1, ho1, hcond1⟩ := hbef (j + 1) (by omega)
        have harith : i0 + (j + 1) = i0 + 1 + j := by omega
        rw [harith] at hcond1
        exact ⟨e1, r1, by simpa using hg1, ho1, hcond1⟩
      have herr' : ∃ e, rest.get? i = some e
          ∧ uct_ib_device_query_gid_info e = Except.error st :=
        ⟨e, by simpa using hget, hq⟩
      have hrec := scan_tier_error_aborts p probe st i rest (i0 + 1) hbef' herr'
      obtain ⟨g1, info1⟩ := r
      simp [select_gid_scan_tier, hok0, hcond0, hrec]

/-- C8: during select_gid's scan, the first GID table entry whose
query fails (hardware GID read failure or unparsable gid-type string,
both surfacing from `uct_ib_device_query_gid_info`) aborts the whole
search and its error is returned to the caller — no fallback selection
happens: earlier entries must have queried cleanly without being
selected for the first tier, and the erroring entry's status is the
final result. -/
theorem claim_C8_gid_query_failure_aborts (table : List GidTableEntry)
    (probe : Nat → Bool) (i : Nat) (st : UcsStatus)
    (hbefore : ∀ j, j < i → ∃ e r, table.get? j = some e
        ∧ uct_ib_device_query_gid_info e = Except.ok r
        ∧ ¬(r.2 = { ver := uct_ib_roce_version.v2, addr_family := sa_family.inet }
            ∧ probe j = true))
    (herr : ∃ e, table.get? i = some e
        ∧ uct_ib_device_query_gid_info e = Except.error st) :
    uct_ib_device_select_gid table probe = Except.error st := by
  have h0 : ∀ j, j < i → ∃ e r, table.get? j = some e
      ∧ uct_ib_device_query_gid_info e = Except.ok r
      ∧ ((({ ver := uct_ib_roce_version.v2, addr_family := sa_family.inet }
            : uct_ib_roce_version_info).ver == r.2.ver
          && ({ ver := uct_ib_roce_version.v2, addr_family := sa_family.inet }
            : uct_ib_roce_version_info).addr_family == r.2.addr_family)
          && probe (0 + j)) = false := by
    intro j hj
    obtain ⟨e, r, hg, hq, hn⟩ := hbefore j hj
    refine ⟨e, r, hg, hq, ?_⟩
    rw [Nat.zero_add, Bool.eq_false_iff]
    intro hbt
    simp only [Bool.and_eq_true, beq_iff_eq] at hbt
    obtain ⟨⟨hv, ha⟩, hp⟩ := hbt
    apply hn
    refine ⟨?_, hp⟩
    obtain ⟨g, info⟩ := r
    cases info
    simp_all
  have hscan := scan_tier_error_aborts
    { ver := uct_ib_roce_version.v2, addr_family := sa_family.inet } probe st i table 0
    h0 herr
  simp [uct_ib_device_select_gid, select_gid_tiers, uct_ib_roce_prio, hscan]

/-- C8 witness: entry 0 queries cleanly as (v1,IPv4) and is not a
first-tier match, entry 1 fails its hardware GID query; the whole
search aborts with that entry's `UCS_ERR_INVALID_PARAM` even though
every probe would succeed. -/
theorem claim_C8_witness :
    uct_ib_device_select_gid
      [{ gid := some ⟨0, 0, 0x0000ffff, 1⟩, gid_type := some ("IB/RoCE v1") },
       { gid := none, gid_type := none }]
      (fun _ => true)
      = Except.error UcsStatus.UCS_ERR_INVALID_PARAM := by
  refine claim_C8_gid_query_failure_aborts _ _ 1 _ ?_ ?_
  · intro j hj
    have hj0 : j = 0 := by omega
    subst hj0
    exact ⟨{ gid := some ⟨0, 0, 0x0000ffff, 1⟩, gid_type := some ("IB/RoCE v1") },
           (⟨0, 0, 0x0000ffff, 1⟩,
            { ver := uct_ib_roce_version.v1, addr_family := sa_family.inet }),
           by decide, by decide, by decide⟩
  · exact ⟨{ gid := none, gid_type := none }, by decide, by decide⟩

/-- C9: `uct_ib_device_port_check` evaluates its conditions in exactly
the source order, the first failure deciding the result: port number
out of range → `UCS_ERR_NO_DEVICE`; empty GID table →
`UCS_ERR_UNSUPPORTED`; port not active → `UCS_ERR_UNREACHABLE`; iWARP
transport → `UCS_ERR_UNSUPPORTED`; non-InfiniBand link layer when the
caller requires InfiniBand → `UCS_ERR_UNSUPPORTED`; DC requested
without the hardware flag → `UCS_ERR_UNSUPPORTED`; missing required
PRM flags from the catalog lookup → `UCS_ERR_UNSUPPORTED`; a GID query
failure propagates as-is; subnet-prefix filter mismatch →
`UCS_ERR_UNSUPPORTED`; otherwise `UCS_OK`. -/
theorem claim_C9_port_check_order (dev : uct_ib_device_model) (md : uct_ib_md_model)
    (port_num : Nat) (flags : uct_ib_device_flags_req) :
    ((port_num < dev.first_port ∨ dev.first_port + dev.num_ports ≤ port_num) →
      uct_ib_device_port_check dev md port_num flags = UcsStatus.UCS_ERR_NO_DEVICE)
    ∧ (¬(port_num < dev.first_port ∨ dev.first_port + dev.num_ports ≤ port_num) →
       (dev.port_attr port_num).gid_tbl_len = 0 →
      uct_ib_device_port_check dev md port_num flags = UcsStatus.UCS_ERR_UNSUPPORTED)
    ∧ (¬(port_num < dev.first_port ∨ dev.first_port + dev.num_ports ≤ port_num) →
       (dev.port_attr port_num).gid_tbl_len ≠ 0 →
       (dev.port_attr port_num).state ≠ IBV_PORT_ACTIVE →
      uct_ib_device_port_check dev md port_num flags = UcsStatus.UCS_ERR_UNREACHABLE)
    ∧ (¬(port_num < dev.first_port ∨ dev.first_port + dev.num_ports ≤ port_num) →
       (dev.port_attr port_num).gid_tbl_len ≠ 0 →
       (dev.port_attr port_num).state = IBV_PORT_ACTIVE →
       dev.transport_iwarp = true →
      uct_ib_device_port_check dev md port_num flags = UcsStatus.UCS_ERR_UNSUPPORTED)
    ∧ (¬(port_num < dev.first_port ∨ dev.first_port + dev.num_ports ≤ port_num) →
       (dev.port_attr port_num).gid_tbl_len ≠ 0 →
       (dev.port_attr port_num).state = IBV_PORT_ACTIVE →
       dev.transport_iwarp = false →
       (dev.port_attr port_num).link_layer_ib = false →
       flags.link_ib = true →
      uct_ib_device_port_check dev md port_num flags = UcsStatus.UCS_ERR_UNSUPPORTED)
    ∧ (¬(port_num < dev.first_port ∨ dev.first_port + dev.num_ports ≤ port_num) →
       (dev.port_attr port_num).gid_tbl_len ≠ 0 →
       (dev.port_attr port_num).state = IBV_PORT_ACTIVE →
       dev.transport_iwarp = false →
       ¬(¬(dev.port_attr port_num).link_layer_ib ∧ flags.link_ib) →
       flags.dc = true →
       dev.has_dc = false →
      uct_ib_device_port_check dev md port_num flags = UcsStatus.UCS_ERR_UNSUPPORTED)
    ∧ (¬(port_num < dev.first_port ∨ dev.first_port + dev.num_ports ≤ port_num) →
       (dev.port_attr port_num).gid_tbl_len ≠ 0 →
       (dev.port_attr port_num).state = IBV_PORT_ACTIVE →
       dev.transport_iwarp = false →
       ¬(¬(dev.port_attr port_num).link_layer_ib ∧ flags.link_ib) →
       ¬(flags.dc ∧ ¬dev.has_dc) →
       ((flags.mlx4_prm ∧
           ¬(uct_ib_device_spec_lookup md.custom_specs dev.pci_id).flags.mlx4_prm) ∨
        (flags.mlx5_prm ∧
           ¬(uct_ib_device_spec_lookup md.custom_specs dev.pci_id).flags.mlx5_prm)) →
      uct_ib_device_port_check dev md port_num flags = UcsStatus.UCS_ERR_UNSUPPORTED)
    ∧ (∀ st, ¬(port_num < dev.first_port ∨ dev.first_port + dev.num_ports ≤ port_num) →
       (dev.port_attr port_num).gid_tbl_len ≠ 0 →
       (dev.port_attr port_num).state = IBV_PORT_ACTIVE →
       dev.transport_iwarp = false →
       ¬(¬(dev.port_attr port_num).link_layer_ib ∧ flags.link_ib) →
       ¬(flags.dc ∧ ¬dev.has_dc) →
       ¬((flags.mlx4_prm ∧
           ¬(uct_ib_device_spec_lookup md.custom_specs dev.pci_id).flags.mlx4_prm) ∨
         (flags.mlx5_prm ∧
           ¬(uct_ib_device_spec_lookup md.custom_specs dev.pci_id).flags.mlx5_prm)) →
       uct_ib_device_query_gid (dev.gid_table port_num)
           (uct_ib_device_get_ib_gid_index md.config_gid_index) = Except.error st →
      uct_ib_device_port_check dev md port_num flags = st)
    ∧ (∀ g, ¬(port_num < dev.first_port ∨ dev.first_port + dev.num_ports ≤ port_num) →
       (dev.port_attr port_num).gid_tbl_len ≠ 0 →
       (dev.port_attr port_num).state = IBV_PORT_ACTIVE →
       dev.transport_iwarp = false →
       ¬(¬(dev.port_attr port_num).link_layer_ib ∧ flags.link_ib) →
       ¬(flags.dc ∧ ¬dev.has_dc) →
       ¬((flags.mlx4_prm ∧
           ¬(uct_ib_device_spec_lookup md.custom_specs dev.pci_id).flags.mlx4_prm) ∨
         (flags.mlx5_prm ∧
           ¬(uct_ib_device_spec_lookup md.custom_specs dev.pci_id).flags.mlx5_prm)) →
       uct_ib_device_query_gid (dev.gid_table port_num)
           (uct_ib_device_get_ib_gid_index md.config_gid_index) = Except.ok g →
       (md.check_subnet_filter ∧ (dev.port_attr port_num).link_layer_ib ∧
          md.subnet_filter ≠ gid_subnet_pfx g) →
      uct_ib_device_port_check dev md port_num flags = UcsStatus.UCS_ERR_UNSUPPORTED)
    ∧ (∀ g, ¬(port_num < dev.first_port ∨ dev.first_port + dev.num_ports ≤ port_num) →
       (dev.port_attr port_num).gid_tbl_len ≠ 0 →
       (dev.port_attr port_num).state = IBV_PORT_ACTIVE →
       dev.transport_iwarp = false →
       ¬(¬(dev.port_attr port_num).link_layer_ib ∧ flags.link_ib) →
       ¬(flags.dc ∧ ¬dev.has_dc) →
       ¬((flags.mlx4_prm ∧
           ¬(uct_ib_device_spec_lookup md.custom_specs dev.pci_id).flags.mlx4_prm) ∨
         (flags.mlx5_prm ∧
           ¬(uct_ib_device_spec_lookup md.custom_specs dev.pci_id).flags.mlx5_prm)) →
       uct_ib_device_query_gid (dev.gid_table port_num)
           (uct_ib_device_get_ib_gid_index md.config_gid_index) = Except.ok g →
       ¬(md.check_subnet_filter ∧ (dev.port_attr port_num).link_layer_ib ∧
          md.subnet_filter ≠ gid_subnet_pfx g) →
      uct_ib_device_port_check dev md port_num flags = UcsStatus.UCS_OK) := by
  refine ⟨?_, ?_, ?_, ?_, ?_, ?_, ?_, ?_, ?_, ?_⟩
  · intro h1
    simp [uct_ib_device_port_check, h1]
  · intro h1 h2
    simp [uct_ib_device_port_check, h1, h2]
  · intro h1 h2 h3
    simp [uct_ib_device_port_check, h1, h2, h3]
  · intro h1 h2 h3 h4
    simp [uct_ib_device_port_check, h1, h2, h3, h4]
  · intro h1 h2 h3 h4 h5a h5b
    simp [uct_ib_device_port_check, h1, h2, h3, h4, h5a, h5b]
  · intro h1 h2 h3 h4 h5 h6a h6b
    simp [uct_ib_device_port_check, h1, h2, h3, h4, h5, h6a, h6b]
  · intro h1 h2 h3 h4 h5 h6 h7
    simp only [Bool.not_eq_true] at h5 h6 h7
    simp [uct_ib_device_port_check, h1, h2, h3, h4, h5, h6, h7]
  · intro st h1 h2 h3 h4 h5 h6 h7 h8
    simp only [Bool.not_eq_true] at h5 h6 h7
    simp [uct_ib_device_port_check, h1, h2, h3, h4, h5, h6, h7, h8]
  · intro g h1 h2 h3 h4 h5 h6 h7 h8 h9
    simp only [Bool.not_eq_true] at h5 h6 h7
    simp [uct_ib_device_port_check, h1, h2, h3, h4, h5, h6, h7, h8, h9]
  · intro g h1 h2 h3 h4 h5 h6 h7 h8 h9
    simp only [Bool.not_eq_true] at h5 h6 h7
    simp [uct_ib_device_port_check, h1, h2, h3, h4, h5, h6, h7, h8, h9]

/-- C9 witness: on a concrete ConnectX-6 device (one active IB port 1
with a non-empty GID table), port 2 is out of range → `NO_DEVICE`; the
full check on port 1 passes → `OK`; a ConnectX-3 device asked for the
MLX5 PRM flag fails the catalog check → `UNSUPPORTED`; and an all-zero
GID at the default index makes the GID query fail, whose
`INVALID_ADDR` error is propagated as the result. -/
theorem claim_C9_witness :
    uct_ib_device_port_check
      { first_port := 1, num_ports := 1,
        port_attr := fun _ => { state := 4, gid_tbl_len := 3, link_layer_ib := true },
        gid_table := fun _ => [{ gid := some ⟨0, 0, 0x0000ffff, 1⟩, gid_type := none }],
        transport_iwarp := false, has_dc := true,
        pci_id := { vendor := 0x15b3, device := 4123 } }
      { custom_specs := [], config_gid_index := none,
        check_subnet_filter := false, subnet_filter := 0 }
      2 { link_ib := false, dc := false, mlx4_prm := false, mlx5_prm := false }
      = UcsStatus.UCS_ERR_NO_DEVICE
    ∧ uct_ib_device_port_check
      { first_port := 1, num_ports := 1,
        port_attr := fun _ => { state := 4, gid_tbl_len := 3, link_layer_ib := true },
        gid_table := fun _ => [{ gid := some ⟨0, 0, 0x0000ffff, 1⟩, gid_type := none }],
        transport_iwarp := false, has_dc := true,
        pci_id := { vendor := 0x15b3, device := 4123 } }
      { custom_specs := [], config_gid_index := none,
        check_subnet_filter := false, subnet_filter := 0 }
      1 { link_ib := true, dc := true, mlx4_prm := false, mlx5_prm := true }
      = UcsStatus.UCS_OK
    ∧ uct_ib_device_port_check
      { first_port := 1, num_ports := 1,
        port_attr := fun _ => { state := 4, gid_tbl_len := 3, link_layer_ib := true },
        gid_table := fun _ => [{ gid := some ⟨0, 0, 0x0000ffff, 1⟩, gid_type := none }],
        transport_iwarp := false, has_dc := true,
        pci_id := { vendor := 0x15b3, device := 4099 } }
      { custom_specs := [], config_gid_index := none,
        check_subnet_filter := false, subnet_filter := 0 }
      1 { link_ib := false, dc := false, mlx4_prm := false, mlx5_prm := true }
      = UcsStatus.UCS_ERR_UNSUPPORTED
    ∧ uct_ib_device_port_check
      { first_port := 1, num_ports := 1,
        port_attr := fun _ => { state := 4, gid_tbl_len := 3, link_layer_ib := true },
        gid_table := fun _ => [{ gid := some ⟨0, 0, 0, 0⟩, gid_type := none }],
        transport_iwarp := false, has_dc := true,
        pci_id := { vendor := 0x15b3, device := 4123 } }
      { custom_specs := [], config_gid_index := none,
        check_subnet_filter := false, subnet_filter := 0 }
      1 { link_ib := false, dc := false, mlx4_prm := false, mlx5_prm := false }
      = UcsStatus.UCS_ERR_INVALID_ADDR := by
  refine ⟨(claim_C9_port_check_order _ _ 2 _).1 (by decide),
          (claim_C9_port_check_order _ _ 1 _).2.2.2.2.2.2.2.2.2
            ⟨0, 0, 0x0000ffff, 1⟩ (by decide) (by decide) (by decide) (by decide)
            (by decide) (by decide) (by decide) (by decide) (by decide),
          (claim_C9_port_check_order _ _ 1 _).2.2.2.2.2.2.1
            (by decide) (by decide) (by decide) (by decide) (by decide) (by decide)
            (by decide),
          (claim_C9_port_check_order _ _ 1 _).2.2.2.2.2.2.2.1
            UcsStatus.UCS_ERR_INVALID_ADDR (by decide) (by decide) (by decide)
            (by decide) (by decide) (by decide) (by decide) (by decide)⟩
